import Mathlib

/-!
Verification of the Swept AABB 3D collision demo (Main.cpp).

The numeric model uses exact rationals in place of IEEE floats; the
infinities used by the solver as axis-bypass sentinels are modelled by an
explicit extended-rational type `XQ` whose comparison operators mirror the
IEEE total order on non-NaN values (no NaN arises in the solver: every
division has a nonzero divisor and no `0 * inf` or `inf - inf` is formed).
-/

namespace SweptDemo

/-- A 3-component vector of rationals (models `glm::vec3`). -/
structure Vec3 where
  x : ℚ
  y : ℚ
  z : ℚ
deriving DecidableEq

instance : Add Vec3 := ⟨fun a b => ⟨a.x + b.x, a.y + b.y, a.z + b.z⟩⟩

theorem Vec3.add_def (a b : Vec3) : a + b = ⟨a.x + b.x, a.y + b.y, a.z + b.z⟩ := rfl

/-- Scalar multiple of a vector (models `glm::vec3 * float`). -/
def Vec3.scale (q : ℚ) (v : Vec3) : Vec3 := ⟨q * v.x, q * v.y, q * v.z⟩

/-- An axis-aligned bounding box given by its two corners (models `AABB`). -/
structure AABB where
  min : Vec3
  max : Vec3
deriving DecidableEq

/-- Extended rationals: a rational, or one of the two IEEE infinities used
by the solver as sentinels. -/
inductive XQ where
  | negInf : XQ
  | fin (q : ℚ) : XQ
  | posInf : XQ
deriving DecidableEq

/-- Strict less-than on `XQ`, matching the IEEE `<` on non-NaN floats. -/
def XQ.blt : XQ → XQ → Bool
  | .negInf, .negInf => false
  | .negInf, .fin _ => true
  | .negInf, .posInf => true
  | .fin _, .negInf => false
  | .fin a, .fin b => decide (a < b)
  | .fin _, .posInf => true
  | .posInf, _ => false

/-- Non-strict less-or-equal on `XQ`, matching the IEEE `<=` on non-NaN floats. -/
def XQ.ble : XQ → XQ → Bool
  | .negInf, _ => true
  | .fin _, .negInf => false
  | .fin a, .fin b => decide (a ≤ b)
  | .fin _, .posInf => true
  | .posInf, .posInf => true
  | .posInf, _ => false

/-- `std::max` on floats: `(a < b) ? b : a`. -/
def XQ.bmax (a b : XQ) : XQ := if XQ.blt a b then b else a

/-- `std::min` on floats: `(b < a) ? b : a`. -/
def XQ.bmin (a b : XQ) : XQ := if XQ.blt b a then b else a

/-- The rational content of a finite extended value.  The solver's returned
collision time is always finite (`sweptData_time_fin` below), so the
defaults for the infinite constructors are never exercised by `update`. -/
def XQ.toQ : XQ → ℚ
  | .fin q => q
  | .negInf => 0
  | .posInf => 0

/-- `1.0f - t` on extended values (IEEE: `1 - inf = -inf`, `1 - (-inf) = inf`). -/
def XQ.oneSub : XQ → XQ
  | .negInf => .posInf
  | .fin q => .fin (1 - q)
  | .posInf => .negInf

/-- Sign of a rational: 1, -1 or 0. -/
def sgn (q : ℚ) : ℚ := if 0 < q then 1 else if q < 0 then -1 else 0

/-- Entry/exit distances for one axis (Main.cpp lines 87-118): the
calculation order follows the sign of the velocity component. -/
def entryExitDist (v min1 max1 min2 max2 : ℚ) : ℚ × ℚ :=
  if 0 < v then (min2 - max1, max2 - min1)
  else (max2 - min1, min2 - max1)

/-- Entry/exit times for one axis (Main.cpp lines 125-185): a zero velocity
component is handled by the overlap test, never by division; `ext1`, `ext2`
are the two boxes' extents on the axis. -/
def entryExitTime (v dE dEx ext1 ext2 : ℚ) : XQ × XQ :=
  if v = 0 then
    (if ext1 + ext2 < max |dE| |dEx| then XQ.fin 2 else XQ.negInf, XQ.posInf)
  else
    (XQ.fin (dE / v), XQ.fin (dEx / v))

/-- The normal cascade of the collision branch (Main.cpp lines 217-261).
`n0` stands for the incoming values of the by-reference out-parameters,
which the cascade leaves untouched when no arm fires. -/
def collisionNormal (xE yE zE : XQ) (xDE yDE zDE : ℚ) (n0 : Vec3) : Vec3 :=
  if XQ.blt yE xE && XQ.blt zE xE then
    if xDE < 0 then ⟨1, 0, 0⟩ else ⟨-1, 0, 0⟩
  else if XQ.blt xE yE && XQ.blt zE yE then
    if yDE < 0 then ⟨0, 1, 0⟩ else ⟨0, -1, 0⟩
  else if XQ.blt xE zE && XQ.blt yE zE then
    if zDE < 0 then ⟨0, 0, 1⟩ else ⟨0, 0, -1⟩
  else n0

/-- Every intermediate and the results of one `SweptAABB` evaluation. -/
structure SweptData where
  xDistanceEntry : ℚ
  xDistanceExit : ℚ
  yDistanceEntry : ℚ
  yDistanceExit : ℚ
  zDistanceEntry : ℚ
  zDistanceExit : ℚ
  xEntryTime : XQ
  xExitTime : XQ
  yEntryTime : XQ
  yExitTime : XQ
  zEntryTime : XQ
  zExitTime : XQ
  entryTime : XQ
  exitTime : XQ
  noCollision : Bool
  time : XQ
  normal : Vec3
deriving DecidableEq

/-- Entry/exit distances of the x axis (Main.cpp lines 87-96). -/
def xDist (box1 box2 : AABB) (vel1 : Vec3) : ℚ × ℚ :=
  entryExitDist vel1.x box1.min.x box1.max.x box2.min.x box2.max.x

/-- Entry/exit distances of the y axis (Main.cpp lines 98-107). -/
def yDist (box1 box2 : AABB) (vel1 : Vec3) : ℚ × ℚ :=
  entryExitDist vel1.y box1.min.y box1.max.y box2.min.y box2.max.y

/-- Entry/exit distances of the z axis (Main.cpp lines 109-118). -/
def zDist (box1 box2 : AABB) (vel1 : Vec3) : ℚ × ℚ :=
  entryExitDist vel1.z box1.min.z box1.max.z box2.min.z box2.max.z

/-- Entry/exit times of the x axis (Main.cpp lines 125-147). -/
def xTimes (box1 box2 : AABB) (vel1 : Vec3) : XQ × XQ :=
  entryExitTime vel1.x (xDist box1 box2 vel1).1 (xDist box1 box2 vel1).2
    (box1.max.x - box1.min.x) (box2.max.x - box2.min.x)

/-- Entry/exit times of the y axis (Main.cpp lines 149-166). -/
def yTimes (box1 box2 : AABB) (vel1 : Vec3) : XQ × XQ :=
  entryExitTime vel1.y (yDist box1 box2 vel1).1 (yDist box1 box2 vel1).2
    (box1.max.y - box1.min.y) (box2.max.y - box2.min.y)

/-- Entry/exit times of the z axis (Main.cpp lines 168-185). -/
def zTimes (box1 box2 : AABB) (vel1 : Vec3) : XQ × XQ :=
  entryExitTime vel1.z (zDist box1 box2 vel1).1 (zDist box1 box2 vel1).2
    (box1.max.z - box1.min.z) (box2.max.z - box2.min.z)

/-- The no-collision test of Main.cpp line 197 (`&&` binds tighter than `||`). -/
def noCollTest (box1 box2 : AABB) (vel1 : Vec3) : Bool :=
  XQ.blt (XQ.bmin (XQ.bmin (xTimes box1 box2 vel1).2 (yTimes box1 box2 vel1).2) (zTimes box1 box2 vel1).2)
      (XQ.bmax (XQ.bmax (xTimes box1 box2 vel1).1 (yTimes box1 box2 vel1).1) (zTimes box1 box2 vel1).1) ||
    (XQ.blt (xTimes box1 box2 vel1).1 (XQ.fin 0) && XQ.blt (yTimes box1 box2 vel1).1 (XQ.fin 0) &&
      XQ.blt (zTimes box1 box2 vel1).1 (XQ.fin 0)) ||
    XQ.blt (XQ.fin 1) (xTimes box1 box2 vel1).1 ||
    XQ.blt (XQ.fin 1) (yTimes box1 box2 vel1).1 ||
    XQ.blt (XQ.fin 1) (zTimes box1 box2 vel1).1

/-- The swept AABB solver (Main.cpp lines 77-266), with all intermediates
exposed.  `box1` is the moving box, `box2` the stationary one, `vel1` the
moving box's displacement over the tick, `n0` the incoming values of the
normal out-parameters. -/
def sweptData (box1 box2 : AABB) (vel1 n0 : Vec3) : SweptData :=
  { xDistanceEntry := (xDist box1 box2 vel1).1, xDistanceExit := (xDist box1 box2 vel1).2
    yDistanceEntry := (yDist box1 box2 vel1).1, yDistanceExit := (yDist box1 box2 vel1).2
    zDistanceEntry := (zDist box1 box2 vel1).1, zDistanceExit := (zDist box1 box2 vel1).2
    xEntryTime := (xTimes box1 box2 vel1).1, xExitTime := (xTimes box1 box2 vel1).2
    yEntryTime := (yTimes box1 box2 vel1).1, yExitTime := (yTimes box1 box2 vel1).2
    zEntryTime := (zTimes box1 box2 vel1).1, zExitTime := (zTimes box1 box2 vel1).2
    entryTime := XQ.bmax (XQ.bmax (xTimes box1 box2 vel1).1 (yTimes box1 box2 vel1).1)
      (zTimes box1 box2 vel1).1
    exitTime := XQ.bmin (XQ.bmin (xTimes box1 box2 vel1).2 (yTimes box1 box2 vel1).2)
      (zTimes box1 box2 vel1).2
    noCollision := noCollTest box1 box2 vel1
    time := if noCollTest box1 box2 vel1 then XQ.fin 2
      else XQ.bmax (XQ.bmax (xTimes box1 box2 vel1).1 (yTimes box1 box2 vel1).1)
        (zTimes box1 box2 vel1).1
    normal := if noCollTest box1 box2 vel1 then ⟨0, 0, 0⟩
      else collisionNormal (xTimes box1 box2 vel1).1 (yTimes box1 box2 vel1).1
        (zTimes box1 box2 vel1).1 (xDist box1 box2 vel1).1 (yDist box1 box2 vel1).1
        (zDist box1 box2 vel1).1 n0 }

/-- The solver's external interface: returned time and normal out-parameters. -/
def SweptAABB (box1 box2 : AABB) (vel1 n0 : Vec3) : XQ × Vec3 :=
  ((sweptData box1 box2 vel1 n0).time, (sweptData box1 box2 vel1 n0).normal)

/-! ### Order facts about the extended comparisons -/

theorem XQ.blt_irrefl (a : XQ) : XQ.blt a a = false := by
  cases a <;> simp [XQ.blt]

theorem XQ.blt_asymm {a b : XQ} (h : XQ.blt a b = true) : XQ.blt b a = false := by
  cases a <;> cases b <;> simp_all [XQ.blt] <;> linarith

theorem XQ.notlt_trans {a b c : XQ} (h1 : XQ.blt a b = false) (h2 : XQ.blt b c = false) :
    XQ.blt a c = false := by
  cases a <;> cases b <;> cases c <;> simp_all [XQ.blt] <;> linarith

theorem XQ.bmax_cases (a b : XQ) : XQ.bmax a b = a ∨ XQ.bmax a b = b := by
  unfold XQ.bmax; split <;> simp

theorem XQ.bmax_notlt_left (a b : XQ) : XQ.blt (XQ.bmax a b) a = false := by
  unfold XQ.bmax
  by_cases h : XQ.blt a b = true
  · simp only [h, if_true]
    exact XQ.blt_asymm h
  · simp only [h, if_false]
    exact XQ.blt_irrefl a

theorem XQ.bmax_notlt_right (a b : XQ) : XQ.blt (XQ.bmax a b) b = false := by
  unfold XQ.bmax
  by_cases h : XQ.blt a b = true
  · simp only [h, if_true]
    exact XQ.blt_irrefl b
  · simp only [h, if_false]
    exact Bool.not_eq_true _ ▸ (by simpa using h)

/-! ### Shape of the per-axis entry times -/

theorem entryExitTime_fst_shape (v dE dEx e1 e2 : ℚ) :
    (entryExitTime v dE dEx e1 e2).1 = XQ.negInf ∨
      ∃ q, (entryExitTime v dE dEx e1 e2).1 = XQ.fin q := by
  unfold entryExitTime
  split
  · split
    · exact Or.inr ⟨2, rfl⟩
    · exact Or.inl rfl
  · exact Or.inr ⟨_, rfl⟩

/-- In the collision branch the latest entry time is a finite value in `[0, 1]`. -/
theorem entry_fin_of_noColl_false (box1 box2 : AABB) (vel1 : Vec3)
    (h : noCollTest box1 box2 vel1 = false) :
    ∃ q, XQ.bmax (XQ.bmax (xTimes box1 box2 vel1).1 (yTimes box1 box2 vel1).1)
        (zTimes box1 box2 vel1).1 = XQ.fin q ∧ 0 ≤ q ∧ q ≤ 1 := by
  unfold noCollTest at h
  simp only [Bool.or_eq_false_iff, Bool.and_eq_false_iff] at h
  obtain ⟨⟨⟨⟨hee, hneg⟩, hx1⟩, hy1⟩, hz1⟩ := h
  set xE := (xTimes box1 box2 vel1).1 with hxE
  set yE := (yTimes box1 box2 vel1).1 with hyE
  set zE := (zTimes box1 box2 vel1).1 with hzE
  -- the maximum is not below every axis entry
  have hmx : XQ.blt (XQ.bmax (XQ.bmax xE yE) zE) xE = false :=
    XQ.notlt_trans (XQ.bmax_notlt_left _ _) (XQ.bmax_notlt_left _ _)
  have hmy : XQ.blt (XQ.bmax (XQ.bmax xE yE) zE) yE = false :=
    XQ.notlt_trans (XQ.bmax_notlt_left _ _) (XQ.bmax_notlt_right _ _)
  have hmz : XQ.blt (XQ.bmax (XQ.bmax xE yE) zE) zE = false :=
    XQ.bmax_notlt_right _ _
  -- some axis entry is not negative, so the maximum is not negative
  have hnn : XQ.blt (XQ.bmax (XQ.bmax xE yE) zE) (XQ.fin 0) = false := by
    rcases hneg with (h0 | h0) | h0
    · exact XQ.notlt_trans hmx h0
    · exact XQ.notlt_trans hmy h0
    · exact XQ.notlt_trans hmz h0
  -- each axis entry is negInf or finite, and the max is one of them
  have hshape : ∀ e : XQ, (e = xE ∨ e = yE ∨ e = zE) →
      e = XQ.negInf ∨ ∃ q, e = XQ.fin q := by
    intro e he
    rcases he with rfl | rfl | rfl
    · exact hxE ▸ entryExitTime_fst_shape _ _ _ _ _
    · exact hyE ▸ entryExitTime_fst_shape _ _ _ _ _
    · exact hzE ▸ entryExitTime_fst_shape _ _ _ _ _
  have hle1 : ∀ e : XQ, (e = xE ∨ e = yE ∨ e = zE) → XQ.blt (XQ.fin 1) e = false := by
    intro e he
    rcases he with rfl | rfl | rfl <;> assumption
  have hmem : XQ.bmax (XQ.bmax xE yE) zE = xE ∨ XQ.bmax (XQ.bmax xE yE) zE = yE ∨
      XQ.bmax (XQ.bmax xE yE) zE = zE := by
    rcases XQ.bmax_cases (XQ.bmax xE yE) zE with h' | h'
    · rcases XQ.bmax_cases xE yE with h'' | h''
      · exact Or.inl (h'.trans h'')
      · exact Or.inr (Or.inl (h'.trans h''))
    · exact Or.inr (Or.inr h')
  rcases hshape _ hmem with hni | ⟨q, hq⟩
  · rw [hni] at hnn
    simp [XQ.blt] at hnn
  · refine ⟨q, hq, ?_, ?_⟩
    · rw [hq] at hnn
      simp only [XQ.blt, decide_eq_false_iff_not, not_lt] at hnn
      exact hnn
    · have := hle1 _ hmem
      rw [hq] at this
      simp only [XQ.blt, decide_eq_false_iff_not, not_lt] at this
      exact this

/-- The solver's returned time is always a finite value: the sentinel `2`
on the no-collision branch, a value in `[0, 1]` otherwise. -/
theorem sweptData_time_fin (box1 box2 : AABB) (vel1 n0 : Vec3) :
    ∃ q, (sweptData box1 box2 vel1 n0).time = XQ.fin q ∧
      (q = 2 ∨ (0 ≤ q ∧ q ≤ 1)) := by
  show ∃ q, (if noCollTest box1 box2 vel1 then XQ.fin 2 else _) = XQ.fin q ∧ _
  by_cases h : noCollTest box1 box2 vel1 = true
  · exact ⟨2, by simp [h], Or.inl rfl⟩
  · have h' : noCollTest box1 box2 vel1 = false := by simpa using h
    obtain ⟨q, hq, h0, h1⟩ := entry_fin_of_noColl_false box1 box2 vel1 h'
    exact ⟨q, by simp [h', hq], Or.inr ⟨h0, h1⟩⟩

/-! ### The normal cascade: strict winner and tie behaviour -/

theorem collisionNormal_xwin {xE yE zE : XQ} {xDE yDE zDE : ℚ} {n0 : Vec3}
    (h1 : XQ.blt yE xE = true) (h2 : XQ.blt zE xE = true) :
    collisionNormal xE yE zE xDE yDE zDE n0 =
      if xDE < 0 then ⟨1, 0, 0⟩ else ⟨-1, 0, 0⟩ := by
  unfold collisionNormal
  simp [h1, h2]

theorem collisionNormal_ywin {xE yE zE : XQ} {xDE yDE zDE : ℚ} {n0 : Vec3}
    (h1 : XQ.blt xE yE = true) (h2 : XQ.blt zE yE = true) :
    collisionNormal xE yE zE xDE yDE zDE n0 =
      if yDE < 0 then ⟨0, 1, 0⟩ else ⟨0, -1, 0⟩ := by
  unfold collisionNormal
  simp [XQ.blt_asymm h1, h1, h2]

theorem collisionNormal_zwin {xE yE zE : XQ} {xDE yDE zDE : ℚ} {n0 : Vec3}
    (h1 : XQ.blt xE zE = true) (h2 : XQ.blt yE zE = true) :
    collisionNormal xE yE zE xDE yDE zDE n0 =
      if zDE < 0 then ⟨0, 0, 1⟩ else ⟨0, 0, -1⟩ := by
  unfold collisionNormal
  simp [XQ.blt_asymm h1, XQ.blt_asymm h2, h1, h2]

/-- When two axes tie for the latest entry, no arm of the cascade fires and
the incoming out-parameter values fall through unchanged. -/
theorem collisionNormal_tie {xE yE zE : XQ} {xDE yDE zDE : ℚ} {n0 : Vec3}
    (h : (xE = yE ∧ XQ.blt xE zE = false) ∨ (xE = zE ∧ XQ.blt xE yE = false) ∨
      (yE = zE ∧ XQ.blt yE xE = false)) :
    collisionNormal xE yE zE xDE yDE zDE n0 = n0 := by
  unfold collisionNormal
  rcases h with ⟨rfl, h2⟩ | ⟨rfl, h2⟩ | ⟨rfl, h2⟩ <;>
    simp [XQ.blt_irrefl, h2]

/-! ### The fixed-timestep scheduler -/

/-- The fixed physics step (Main.cpp line 56, `0.012`). -/
def physicsStep : ℚ := 12/1000

/-- The catch-up while-loop of `checkTime` (Main.cpp lines 401-406): run
the tick action `f` once per whole `physicsStep` contained in the
accumulator, and return the leftover accumulator. -/
def runTicks {α : Type} (f : α → α) (acc : ℚ) (w : α) : ℚ × α :=
  if h : physicsStep ≤ acc then runTicks f (acc - physicsStep) (f w)
  else (acc, w)
termination_by (⌈acc / physicsStep⌉).toNat
decreasing_by
  have hp : (0:ℚ) < physicsStep := by norm_num [physicsStep]
  have h1 : (1:ℚ) ≤ acc / physicsStep := (one_le_div hp).mpr h
  have h2 : (acc - physicsStep) / physicsStep = acc / physicsStep - 1 := by
    field_simp
  have h3 : (1:ℤ) ≤ ⌈acc / physicsStep⌉ := by
    exact_mod_cast h1.trans (Int.le_ceil _)
  rw [h2, Int.ceil_sub_one]
  omega

/-- Unrolling `runTicks`: it subtracts `physicsStep` once per whole step in
the accumulator and iterates the tick action that many times. -/
theorem runTicks_spec {α : Type} (f : α → α) (acc : ℚ) (w : α) (h0 : 0 ≤ acc) :
    runTicks f acc w =
      (acc - physicsStep * ⌊acc / physicsStep⌋, f^[(⌊acc / physicsStep⌋).toNat] w) := by
  have hp : (0:ℚ) < physicsStep := by norm_num [physicsStep]
  rw [runTicks]
  split
  · rename_i h
    have h0' : 0 ≤ acc - physicsStep := by linarith
    rw [runTicks_spec f (acc - physicsStep) (f w) h0']
    have hdiv : (acc - physicsStep) / physicsStep = acc / physicsStep - 1 := by field_simp
    have hfl : ⌊(acc - physicsStep) / physicsStep⌋ = ⌊acc / physicsStep⌋ - 1 := by
      rw [hdiv, Int.floor_sub_one]
    have h1 : (1:ℚ) ≤ acc / physicsStep := (one_le_div hp).mpr h
    have h3 : (1:ℤ) ≤ ⌊acc / physicsStep⌋ := by rwa [Int.le_floor, Int.cast_one]
    simp only [Prod.mk.injEq]
    constructor
    · rw [hfl]
      push_cast
      ring
    · rw [hfl]
      have hn : (⌊acc / physicsStep⌋ - 1).toNat + 1 = (⌊acc / physicsStep⌋).toNat := by omega
      rw [← hn, Function.iterate_succ_apply]
  · rename_i h
    have hlt : acc < physicsStep := by linarith [not_le.mp h]
    have hfl : ⌊acc / physicsStep⌋ = 0 := by
      rw [Int.floor_eq_zero_iff]
      exact ⟨div_nonneg h0 hp.le, (div_lt_one hp).mpr hlt⟩
    simp [hfl]
termination_by (⌈acc / physicsStep⌉).toNat
decreasing_by
  have hp : (0:ℚ) < physicsStep := by norm_num [physicsStep]
  have h1 : (1:ℚ) ≤ acc / physicsStep := (one_le_div hp).mpr (by assumption)
  have h2 : (acc - physicsStep) / physicsStep = acc / physicsStep - 1 := by
    field_simp
  have h3 : (1:ℤ) ≤ ⌈acc / physicsStep⌉ := by
    exact_mod_cast h1.trans (Int.le_ceil _)
  rw [h2, Int.ceil_sub_one]
  omega

/-- The leftover accumulator of a whole-step subtraction lies in `[0, physicsStep)`. -/
theorem leftover_bounds (acc : ℚ) :
    0 ≤ acc - physicsStep * ⌊acc / physicsStep⌋ ∧
      acc - physicsStep * ⌊acc / physicsStep⌋ < physicsStep := by
  have hp : (0:ℚ) < physicsStep := by norm_num [physicsStep]
  have hq : acc - physicsStep * ⌊acc / physicsStep⌋ = physicsStep * Int.fract (acc / physicsStep) := by
    unfold Int.fract
    field_simp
  constructor
  · rw [hq]
    exact mul_nonneg hp.le (Int.fract_nonneg _)
  · rw [hq]
    calc physicsStep * Int.fract (acc / physicsStep) < physicsStep * 1 :=
      (mul_lt_mul_left hp).mpr (Int.fract_lt_one _)
    _ = physicsStep := mul_one _

/-- The scheduler state (Main.cpp lines 50-56). -/
structure SchedState where
  frame : ℕ
  timebase : ℚ
  accumulator : ℚ
  fps : ℤ
  FPSTime : ℚ
deriving DecidableEq

/-- The per-frame scheduler pass (Main.cpp lines 361-408).  `f` is one
physics tick (`update(physicsStep)`), `tm` the current clock reading. -/
def checkTime {α : Type} (f : α → α) (tm : ℚ) (s : SchedState) (w : α) : SchedState × α :=
  let dt := tm - s.timebase
  if physicsStep < dt then
    let doFPS := 1 < tm - s.FPSTime
    let s2 : SchedState :=
      { frame := if doFPS then 0 else s.frame
        timebase := tm
        accumulator := s.accumulator
        fps := if doFPS then ⌊(s.frame : ℚ) / (tm - s.FPSTime)⌋ else s.fps
        FPSTime := if doFPS then tm else s.FPSTime }
    let dt2 := if 1/4 < dt then 1/4 else dt
    let r := runTicks f (s2.accumulator + dt2) w
    ({ s2 with accumulator := r.1 }, r.2)
  else (s, w)

/-! ### The integration and response step -/

/-- A body.  Modelled from the spec: position, orientation (accumulated
Euler-like rotation), velocity and an owned AABB (spec data model); the
`GameObject` class itself is not part of Main.cpp. -/
structure Body where
  pos : Vec3
  vel : Vec3
  orient : Vec3
  aabb : AABB
deriving DecidableEq

/-- Modelled from the spec: `GameObject::Update(t)` integrates the position
by velocity times the given time slice (spec 4.3 "integrate both bodies"). -/
def Body.update (t : ℚ) (b : Body) : Body :=
  { b with pos := b.pos + Vec3.scale t b.vel }

/-- Modelled from the spec: `GameObject::Rotate` accumulates the per-tick
rotation into the orientation. -/
def Body.rotate (r : Vec3) (b : Body) : Body :=
  { b with orient := b.orient + r }

/-- Modelled from the spec: `GameObject::CalculateAABB` recomputes the box
wholesale from the current orientation and position; the geometric mapping
is abstract here, passed in as `g`. -/
def Body.calcAABB (g : Vec3 → Vec3 → AABB) (b : Body) : Body :=
  { b with aabb := g b.orient b.pos }

/-- The two bodies of the demo: `obj1` is the stationary reference body,
`obj2` the moving one. -/
structure World where
  obj1 : Body
  obj2 : Body
deriving DecidableEq

/-- The world-boundary reflect check on the moving body (Main.cpp lines
272-290): each axis reflects the velocity when the captured position
exceeds the boundary extent on that axis. -/
def boundaryReflect (b : Body) : Body :=
  let tempPos := b.pos
  let b1 := if 9/10 < |tempPos.x| then { b with vel := ⟨-1 * b.vel.x, b.vel.y, b.vel.z⟩ } else b
  let b2 := if 4/5 < |tempPos.y| then { b1 with vel := ⟨b1.vel.x, -1 * b1.vel.y, b1.vel.z⟩ } else b1
  if 1 < |tempPos.z| then { b2 with vel := ⟨b2.vel.x, b2.vel.y, -1 * b2.vel.z⟩ } else b2

/-- The state of both bodies right before the solver call, after the
boundary check (Main.cpp 272-290), the per-tick rotation (293-294) and the
AABB recomputation (301-302), in that order.  `g` is the abstract AABB
geometry, `r` the per-tick rotation amount. -/
def prepared (g : Vec3 → Vec3 → AABB) (r : Vec3) (w : World) : World :=
  let w1 : World := { w with obj2 := boundaryReflect w.obj2 }
  let w2 : World := { obj1 := w1.obj1.rotate r, obj2 := w1.obj2.rotate r }
  { obj1 := w2.obj1.calcAABB g, obj2 := w2.obj2.calcAABB g }

/-- The solver call of a tick (Main.cpp line 309): moving box first,
stationary box second, displacement = moving velocity times `dt`. -/
def tickSwept (g : Vec3 → Vec3 → AABB) (r n0 : Vec3) (dt : ℚ) (w : World) : SweptData :=
  sweptData (prepared g r w).obj2.aabb (prepared g r w).obj1.aabb
    (Vec3.scale dt (prepared g r w).obj2.vel) n0

/-- The velocity reflection of the collision branch (Main.cpp lines
320-335): flip exactly the components whose normal component has magnitude
above the epsilon. -/
def bounceVel (n v : Vec3) : Vec3 :=
  ⟨if 1/10000 < |n.x| then -1 * v.x else v.x,
    if 1/10000 < |n.y| then -1 * v.y else v.y,
    if 1/10000 < |n.z| then -1 * v.z else v.z⟩

/-- Observable step events of one tick, in execution order. -/
inductive Ev where
  | boundaryCheck : Ev
  | rotateBodies : Ev
  | recomputeAABB : Ev
  | sweptCall : Ev
  | integrateSplit : Ev
  | integrateFull : Ev
deriving DecidableEq

/-- One physics tick (Main.cpp lines 269-358), returning the new world and
the trace of its steps in execution order.  `n0` stands for the
indeterminate initial values of the uninitialised `normalx/y/z` locals. -/
def update (g : Vec3 → Vec3 → AABB) (r n0 : Vec3) (dt : ℚ) (w : World) : World × List Ev :=
  let wp := prepared g r w
  let sw := tickSwept g r n0 dt w
  let collisionTime := sw.time
  let remainingTime := XQ.oneSub collisionTime
  if XQ.ble (XQ.fin 0) remainingTime then
    let velocity := bounceVel sw.normal wp.obj2.vel
    let tq := XQ.toQ collisionTime
    let rq := XQ.toQ remainingTime
    let wA : World := { obj1 := wp.obj1.update (tq * dt), obj2 := wp.obj2.update (tq * dt) }
    let wB : World := { wA with obj2 := { wA.obj2 with vel := velocity } }
    let wC : World := { obj1 := wB.obj1.update (rq * dt), obj2 := wB.obj2.update (rq * dt) }
    (wC, [Ev.boundaryCheck, Ev.rotateBodies, Ev.recomputeAABB, Ev.sweptCall, Ev.integrateSplit])
  else
    ({ obj1 := wp.obj1.update dt, obj2 := wp.obj2.update dt },
      [Ev.boundaryCheck, Ev.rotateBodies, Ev.recomputeAABB, Ev.sweptCall, Ev.integrateFull])

/-! ### Projection lemmas for the solver record -/

theorem sweptData_xDistanceEntry (box1 box2 : AABB) (vel1 n0 : Vec3) :
    (sweptData box1 box2 vel1 n0).xDistanceEntry = (xDist box1 box2 vel1).1 := rfl

theorem sweptData_xDistanceExit (box1 box2 : AABB) (vel1 n0 : Vec3) :
    (sweptData box1 box2 vel1 n0).xDistanceExit = (xDist box1 box2 vel1).2 := rfl

theorem sweptData_yDistanceEntry (box1 box2 : AABB) (vel1 n0 : Vec3) :
    (sweptData box1 box2 vel1 n0).yDistanceEntry = (yDist box1 box2 vel1).1 := rfl

theorem sweptData_yDistanceExit (box1 box2 : AABB) (vel1 n0 : Vec3) :
    (sweptData box1 box2 vel1 n0).yDistanceExit = (yDist box1 box2 vel1).2 := rfl

theorem sweptData_zDistanceEntry (box1 box2 : AABB) (vel1 n0 : Vec3) :
    (sweptData box1 box2 vel1 n0).zDistanceEntry = (zDist box1 box2 vel1).1 := rfl

theorem sweptData_zDistanceExit (box1 box2 : AABB) (vel1 n0 : Vec3) :
    (sweptData box1 box2 vel1 n0).zDistanceExit = (zDist box1 box2 vel1).2 := rfl

theorem sweptData_xEntryTime (box1 box2 : AABB) (vel1 n0 : Vec3) :
    (sweptData box1 box2 vel1 n0).xEntryTime = (xTimes box1 box2 vel1).1 := rfl

theorem sweptData_xExitTime (box1 box2 : AABB) (vel1 n0 : Vec3) :
    (sweptData box1 box2 vel1 n0).xExitTime = (xTimes box1 box2 vel1).2 := rfl

theorem sweptData_yEntryTime (box1 box2 : AABB) (vel1 n0 : Vec3) :
    (sweptData box1 box2 vel1 n0).yEntryTime = (yTimes box1 box2 vel1).1 := rfl

theorem sweptData_yExitTime (box1 box2 : AABB) (vel1 n0 : Vec3) :
    (sweptData box1 box2 vel1 n0).yExitTime = (yTimes box1 box2 vel1).2 := rfl

theorem sweptData_zEntryTime (box1 box2 : AABB) (vel1 n0 : Vec3) :
    (sweptData box1 box2 vel1 n0).zEntryTime = (zTimes box1 box2 vel1).1 := rfl

theorem sweptData_zExitTime (box1 box2 : AABB) (vel1 n0 : Vec3) :
    (sweptData box1 box2 vel1 n0).zExitTime = (zTimes box1 box2 vel1).2 := rfl

theorem sweptData_entryTime (box1 box2 : AABB) (vel1 n0 : Vec3) :
    (sweptData box1 box2 vel1 n0).entryTime = XQ.bmax (XQ.bmax (xTimes box1 box2 vel1).1 (yTimes box1 box2 vel1).1) (zTimes box1 box2 vel1).1 := rfl

theorem sweptData_exitTime (box1 box2 : AABB) (vel1 n0 : Vec3) :
    (sweptData box1 box2 vel1 n0).exitTime = XQ.bmin (XQ.bmin (xTimes box1 box2 vel1).2 (yTimes box1 box2 vel1).2) (zTimes box1 box2 vel1).2 := rfl

theorem sweptData_noCollision (box1 box2 : AABB) (vel1 n0 : Vec3) :
    (sweptData box1 box2 vel1 n0).noCollision = noCollTest box1 box2 vel1 := rfl

theorem sweptData_time (box1 box2 : AABB) (vel1 n0 : Vec3) :
    (sweptData box1 box2 vel1 n0).time = if noCollTest box1 box2 vel1 then XQ.fin 2 else XQ.bmax (XQ.bmax (xTimes box1 box2 vel1).1 (yTimes box1 box2 vel1).1) (zTimes box1 box2 vel1).1 := rfl

theorem sweptData_normal (box1 box2 : AABB) (vel1 n0 : Vec3) :
    (sweptData box1 box2 vel1 n0).normal = if noCollTest box1 box2 vel1 then (⟨0, 0, 0⟩ : Vec3) else collisionNormal (xTimes box1 box2 vel1).1 (yTimes box1 box2 vel1).1 (zTimes box1 box2 vel1).1 (xDist box1 box2 vel1).1 (yDist box1 box2 vel1).1 (zDist box1 box2 vel1).1 n0 := rfl

/-! ### Zero-velocity overlapping axes -/

/-- A zero-velocity axis whose intervals overlap gets the negative-infinity
entry flag and the positive-infinity exit flag. -/
theorem overlap_axis_negInf (min1 max1 min2 max2 : ℚ)
    (h1 : min1 ≤ max2) (h2 : min2 ≤ max1) :
    entryExitTime 0 (entryExitDist 0 min1 max1 min2 max2).1
      (entryExitDist 0 min1 max1 min2 max2).2 (max1 - min1) (max2 - min2) =
      (XQ.negInf, XQ.posInf) := by
  have hd : entryExitDist 0 min1 max1 min2 max2 = (max2 - min1, min2 - max1) := by
    unfold entryExitDist
    norm_num
  rw [hd]
  unfold entryExitTime
  rw [if_pos rfl]
  have habs : max |max2 - min1| |min2 - max1| ≤ (max1 - min1) + (max2 - min2) := by
    rw [abs_of_nonneg (by linarith), abs_of_nonpos (by linarith)]
    exact max_le (by linarith) (by linarith)
  rw [if_neg (not_lt.mpr habs)]

/-! ### Claims about the solver -/

/-- Claim C3 counterexample: in the tunneling scenario (half-extent `0.1`
boxes, centers `2.0` apart on x, displacement `5.0` along x) the solver
returns exactly `(2.0 - 0.2) / 5.0 = 0.36`, which is not `0.38` even at
two-decimal rounding tolerance, so "time ≈ 0.38" fails. -/
theorem claim3_counterexample :
    (sweptData ⟨⟨-1/10, -1/10, -1/10⟩, ⟨1/10, 1/10, 1/10⟩⟩
        ⟨⟨19/10, -1/10, -1/10⟩, ⟨21/10, 1/10, 1/10⟩⟩ ⟨5, 0, 0⟩ ⟨0, 0, 0⟩).time =
      XQ.fin ((2 - 2/10) / 5) ∧
    ((2:ℚ) - 2/10) / 5 = 9/25 ∧
    ¬ (|(9:ℚ)/25 - 38/100| < 5/1000) := by
  refine ⟨?_, by norm_num, by norm_num [abs_of_nonneg, abs_of_nonpos]⟩
  norm_num [sweptData, xDist, yDist, zDist, xTimes, yTimes, zTimes, noCollTest,
    entryExitDist, entryExitTime, collisionNormal,
    XQ.blt, XQ.bmax, XQ.bmin, abs_of_nonneg, abs_of_nonpos]

/-- Claim C3 amended: in the tunneling scenario the solver reports a
collision (not the no-collision sentinel) with time exactly
`(2.0 - 0.2) / 5.0 = 0.36`. -/
theorem claim3_theorem :
    (sweptData ⟨⟨-1/10, -1/10, -1/10⟩, ⟨1/10, 1/10, 1/10⟩⟩
        ⟨⟨19/10, -1/10, -1/10⟩, ⟨21/10, 1/10, 1/10⟩⟩ ⟨5, 0, 0⟩ ⟨0, 0, 0⟩).noCollision = false ∧
    (sweptData ⟨⟨-1/10, -1/10, -1/10⟩, ⟨1/10, 1/10, 1/10⟩⟩
        ⟨⟨19/10, -1/10, -1/10⟩, ⟨21/10, 1/10, 1/10⟩⟩ ⟨5, 0, 0⟩ ⟨0, 0, 0⟩).time =
      XQ.fin ((2 - 2/10) / 5) := by
  constructor <;>
    norm_num [sweptData, xDist, yDist, zDist, xTimes, yTimes, zTimes, noCollTest,
      entryExitDist, entryExitTime, collisionNormal,
      XQ.blt, XQ.bmax, XQ.bmin, abs_of_nonneg, abs_of_nonpos]

/-- Claim C4 counterexample: two overlapping boxes with an all-zero
displacement produce the no-collision sentinel `2.0`, not a finite time in
`[0, 1]`. -/
theorem claim4_counterexample :
    (sweptData ⟨⟨0, 0, 0⟩, ⟨1, 1, 1⟩⟩ ⟨⟨1/2, 1/2, 1/2⟩, ⟨3/2, 3/2, 3/2⟩⟩
        ⟨0, 0, 0⟩ ⟨0, 0, 0⟩).time = XQ.fin 2 ∧
    ¬ ((2:ℚ) ≤ 1) := by
  refine ⟨?_, by norm_num⟩
  norm_num [sweptData, xDist, yDist, zDist, xTimes, yTimes, zTimes, noCollTest,
    entryExitDist, entryExitTime, collisionNormal,
    XQ.blt, XQ.bmax, XQ.bmin, abs_of_nonneg, abs_of_nonpos]

/-- Claim C4 amended: with an all-zero displacement and extents overlapping
on every axis, every per-axis entry time is the negative-infinity flag, so
the all-entries-negative test reports no collision: the solver returns the
sentinel `2.0` with a zero normal, not a finite time in `[0, 1]`. -/
theorem claim4_theorem (box1 box2 : AABB) (n0 : Vec3)
    (hx1 : box1.min.x ≤ box2.max.x) (hx2 : box2.min.x ≤ box1.max.x)
    (hy1 : box1.min.y ≤ box2.max.y) (hy2 : box2.min.y ≤ box1.max.y)
    (hz1 : box1.min.z ≤ box2.max.z) (hz2 : box2.min.z ≤ box1.max.z) :
    (sweptData box1 box2 ⟨0, 0, 0⟩ n0).xEntryTime = XQ.negInf ∧
    (sweptData box1 box2 ⟨0, 0, 0⟩ n0).yEntryTime = XQ.negInf ∧
    (sweptData box1 box2 ⟨0, 0, 0⟩ n0).zEntryTime = XQ.negInf ∧
    (sweptData box1 box2 ⟨0, 0, 0⟩ n0).time = XQ.fin 2 ∧
    (sweptData box1 box2 ⟨0, 0, 0⟩ n0).normal = ⟨0, 0, 0⟩ := by
  have hx : xTimes box1 box2 ⟨0, 0, 0⟩ = (XQ.negInf, XQ.posInf) :=
    overlap_axis_negInf box1.min.x box1.max.x box2.min.x box2.max.x hx1 hx2
  have hy : yTimes box1 box2 ⟨0, 0, 0⟩ = (XQ.negInf, XQ.posInf) :=
    overlap_axis_negInf box1.min.y box1.max.y box2.min.y box2.max.y hy1 hy2
  have hz : zTimes box1 box2 ⟨0, 0, 0⟩ = (XQ.negInf, XQ.posInf) :=
    overlap_axis_negInf box1.min.z box1.max.z box2.min.z box2.max.z hz1 hz2
  have hnc : noCollTest box1 box2 ⟨0, 0, 0⟩ = true := by
    unfold noCollTest
    rw [hx, hy, hz]
    simp [XQ.blt]
  refine ⟨?_, ?_, ?_, ?_, ?_⟩
  · rw [sweptData_xEntryTime, hx]
  · rw [sweptData_yEntryTime, hy]
  · rw [sweptData_zEntryTime, hz]
  · rw [sweptData_time, if_pos hnc]
  · rw [sweptData_normal, if_pos hnc]

/-- Claim C4 witness: a concrete overlapping pair at rest. -/
theorem claim4_witness :
    (0:ℚ) ≤ 1 ∧ (1/2:ℚ) ≤ 1 ∧
    (sweptData ⟨⟨0, 0, 0⟩, ⟨1, 1, 1⟩⟩ ⟨⟨1/2, 1/2, 1/2⟩, ⟨3/2, 3/2, 3/2⟩⟩
        ⟨0, 0, 0⟩ ⟨4, 5, 6⟩).time = XQ.fin 2 ∧
    (sweptData ⟨⟨0, 0, 0⟩, ⟨1, 1, 1⟩⟩ ⟨⟨1/2, 1/2, 1/2⟩, ⟨3/2, 3/2, 3/2⟩⟩
        ⟨0, 0, 0⟩ ⟨4, 5, 6⟩).normal = ⟨0, 0, 0⟩ := by
  have h := claim4_theorem ⟨⟨0, 0, 0⟩, ⟨1, 1, 1⟩⟩ ⟨⟨1/2, 1/2, 1/2⟩, ⟨3/2, 3/2, 3/2⟩⟩ ⟨4, 5, 6⟩
    (by norm_num) (by norm_num) (by norm_num) (by norm_num) (by norm_num) (by norm_num)
  exact ⟨by norm_num, by norm_num, h.2.2.2.1, h.2.2.2.2⟩

theorem entryExitTime_zero (dE dEx e1 e2 : ℚ) :
    entryExitTime 0 dE dEx e1 e2 =
      (if e1 + e2 < max |dE| |dEx| then XQ.fin 2 else XQ.negInf, XQ.posInf) := by
  unfold entryExitTime
  rw [if_pos rfl]

theorem entryExitTime_nonzero {v : ℚ} (hv : v ≠ 0) (dE dEx e1 e2 : ℚ) :
    entryExitTime v dE dEx e1 e2 = (XQ.fin (dE / v), XQ.fin (dEx / v)) := by
  unfold entryExitTime
  rw [if_neg hv]

/-- Claim C6: an axis with a zero displacement component is settled by the
overlap test, never by division: its entry time is the sentinel `2.0` when
the larger absolute distance exceeds the combined extents (forcing the
no-collision result), the negative-infinity flag otherwise, and its exit
time is the positive-infinity flag; division happens only on axes with a
nonzero component. -/
theorem claim6_theorem (box1 box2 : AABB) (vel1 n0 : Vec3) :
    (vel1.x = 0 →
      (sweptData box1 box2 vel1 n0).xEntryTime =
        (if (box1.max.x - box1.min.x) + (box2.max.x - box2.min.x) <
            max |(sweptData box1 box2 vel1 n0).xDistanceEntry|
              |(sweptData box1 box2 vel1 n0).xDistanceExit| then XQ.fin 2 else XQ.negInf) ∧
      (sweptData box1 box2 vel1 n0).xExitTime = XQ.posInf ∧
      ((box1.max.x - box1.min.x) + (box2.max.x - box2.min.x) <
          max |(sweptData box1 box2 vel1 n0).xDistanceEntry|
            |(sweptData box1 box2 vel1 n0).xDistanceExit| →
        (sweptData box1 box2 vel1 n0).noCollision = true)) ∧
    (vel1.x ≠ 0 →
      (sweptData box1 box2 vel1 n0).xEntryTime =
        XQ.fin ((sweptData box1 box2 vel1 n0).xDistanceEntry / vel1.x) ∧
      (sweptData box1 box2 vel1 n0).xExitTime =
        XQ.fin ((sweptData box1 box2 vel1 n0).xDistanceExit / vel1.x)) ∧
    (vel1.y = 0 →
      (sweptData box1 box2 vel1 n0).yEntryTime =
        (if (box1.max.y - box1.min.y) + (box2.max.y - box2.min.y) <
            max |(sweptData box1 box2 vel1 n0).yDistanceEntry|
              |(sweptData box1 box2 vel1 n0).yDistanceExit| then XQ.fin 2 else XQ.negInf) ∧
      (sweptData box1 box2 vel1 n0).yExitTime = XQ.posInf ∧
      ((box1.max.y - box1.min.y) + (box2.max.y - box2.min.y) <
          max |(sweptData box1 box2 vel1 n0).yDistanceEntry|
            |(sweptData box1 box2 vel1 n0).yDistanceExit| →
        (sweptData box1 box2 vel1 n0).noCollision = true)) ∧
    (vel1.y ≠ 0 →
      (sweptData box1 box2 vel1 n0).yEntryTime =
        XQ.fin ((sweptData box1 box2 vel1 n0).yDistanceEntry / vel1.y) ∧
      (sweptData box1 box2 vel1 n0).yExitTime =
        XQ.fin ((sweptData box1 box2 vel1 n0).yDistanceExit / vel1.y)) ∧
    (vel1.z = 0 →
      (sweptData box1 box2 vel1 n0).zEntryTime =
        (if (box1.max.z - box1.min.z) + (box2.max.z - box2.min.z) <
            max |(sweptData box1 box2 vel1 n0).zDistanceEntry|
              |(sweptData box1 box2 vel1 n0).zDistanceExit| then XQ.fin 2 else XQ.negInf) ∧
      (sweptData box1 box2 vel1 n0).zExitTime = XQ.posInf ∧
      ((box1.max.z - box1.min.z) + (box2.max.z - box2.min.z) <
          max |(sweptData box1 box2 vel1 n0).zDistanceEntry|
            |(sweptData box1 box2 vel1 n0).zDistanceExit| →
        (sweptData box1 box2 vel1 n0).noCollision = true)) ∧
    (vel1.z ≠ 0 →
      (sweptData box1 box2 vel1 n0).zEntryTime =
        XQ.fin ((sweptData box1 box2 vel1 n0).zDistanceEntry / vel1.z) ∧
      (sweptData box1 box2 vel1 n0).zExitTime =
        XQ.fin ((sweptData box1 box2 vel1 n0).zDistanceExit / vel1.z)) := by
  simp only [sweptData_xEntryTime, sweptData_xExitTime, sweptData_yEntryTime,
    sweptData_yExitTime, sweptData_zEntryTime, sweptData_zExitTime,
    sweptData_xDistanceEntry, sweptData_xDistanceExit, sweptData_yDistanceEntry,
    sweptData_yDistanceExit, sweptData_zDistanceEntry, sweptData_zDistanceExit,
    sweptData_noCollision]
  refine ⟨?_, ?_, ?_, ?_, ?_, ?_⟩
  · intro h
    have hxt : xTimes box1 box2 vel1 =
        (if (box1.max.x - box1.min.x) + (box2.max.x - box2.min.x) <
            max |(xDist box1 box2 vel1).1| |(xDist box1 box2 vel1).2|
          then XQ.fin 2 else XQ.negInf, XQ.posInf) := by
      unfold xTimes
      rw [h, entryExitTime_zero]
    refine ⟨by rw [hxt], by rw [hxt], ?_⟩
    intro hbig
    have h2 : (xTimes box1 box2 vel1).1 = XQ.fin 2 := by
      rw [hxt]
      exact if_pos hbig
    unfold noCollTest
    rw [h2]
    simp [XQ.blt, show (1:ℚ) < 2 by norm_num]
  · intro h
    have hxt : xTimes box1 box2 vel1 =
        (XQ.fin ((xDist box1 box2 vel1).1 / vel1.x), XQ.fin ((xDist box1 box2 vel1).2 / vel1.x)) := by
      unfold xTimes
      rw [entryExitTime_nonzero h]
    exact ⟨by rw [hxt], by rw [hxt]⟩
  · intro h
    have hyt : yTimes box1 box2 vel1 =
        (if (box1.max.y - box1.min.y) + (box2.max.y - box2.min.y) <
            max |(yDist box1 box2 vel1).1| |(yDist box1 box2 vel1).2|
          then XQ.fin 2 else XQ.negInf, XQ.posInf) := by
      unfold yTimes
      rw [h, entryExitTime_zero]
    refine ⟨by rw [hyt], by rw [hyt], ?_⟩
    intro hbig
    have h2 : (yTimes box1 box2 vel1).1 = XQ.fin 2 := by
      rw [hyt]
      exact if_pos hbig
    unfold noCollTest
    rw [h2]
    simp [XQ.blt, show (1:ℚ) < 2 by norm_num]
  · intro h
    have hyt : yTimes box1 box2 vel1 =
        (XQ.fin ((yDist box1 box2 vel1).1 / vel1.y), XQ.fin ((yDist box1 box2 vel1).2 / vel1.y)) := by
      unfold yTimes
      rw [entryExitTime_nonzero h]
    exact ⟨by rw [hyt], by rw [hyt]⟩
  · intro h
    have hzt : zTimes box1 box2 vel1 =
        (if (box1.max.z - box1.min.z) + (box2.max.z - box2.min.z) <
            max |(zDist box1 box2 vel1).1| |(zDist box1 box2 vel1).2|
          then XQ.fin 2 else XQ.negInf, XQ.posInf) := by
      unfold zTimes
      rw [h, entryExitTime_zero]
    refine ⟨by rw [hzt], by rw [hzt], ?_⟩
    intro hbig
    have h2 : (zTimes box1 box2 vel1).1 = XQ.fin 2 := by
      rw [hzt]
      exact if_pos hbig
    unfold noCollTest
    rw [h2]
    simp [XQ.blt, show (1:ℚ) < 2 by norm_num]
  · intro h
    have hzt : zTimes box1 box2 vel1 =
        (XQ.fin ((zDist box1 box2 vel1).1 / vel1.z), XQ.fin ((zDist box1 box2 vel1).2 / vel1.z)) := by
      unfold zTimes
      rw [entryExitTime_nonzero h]
    exact ⟨by rw [hzt], by rw [hzt]⟩

/-- Claim C6 witness: a zero x-displacement with boxes far apart on x gives
the sentinel entry time `2.0` on x and forces the no-collision result. -/
theorem claim6_witness :
    (⟨0, 1, 0⟩ : Vec3).x = 0 ∧
    (sweptData ⟨⟨0, 0, 0⟩, ⟨1/10, 1/10, 1/10⟩⟩ ⟨⟨5, 0, 0⟩, ⟨51/10, 1/10, 1/10⟩⟩
        ⟨0, 1, 0⟩ ⟨0, 0, 0⟩).xEntryTime = XQ.fin 2 ∧
    (sweptData ⟨⟨0, 0, 0⟩, ⟨1/10, 1/10, 1/10⟩⟩ ⟨⟨5, 0, 0⟩, ⟨51/10, 1/10, 1/10⟩⟩
        ⟨0, 1, 0⟩ ⟨0, 0, 0⟩).noCollision = true := by
  have h := (claim6_theorem ⟨⟨0, 0, 0⟩, ⟨1/10, 1/10, 1/10⟩⟩ ⟨⟨5, 0, 0⟩, ⟨51/10, 1/10, 1/10⟩⟩
    ⟨0, 1, 0⟩ ⟨0, 0, 0⟩).1 rfl
  have hbig : ((⟨⟨0, 0, 0⟩, ⟨1/10, 1/10, 1/10⟩⟩ : AABB).max.x - (⟨⟨0, 0, 0⟩, ⟨1/10, 1/10, 1/10⟩⟩ : AABB).min.x) +
      ((⟨⟨5, 0, 0⟩, ⟨51/10, 1/10, 1/10⟩⟩ : AABB).max.x - (⟨⟨5, 0, 0⟩, ⟨51/10, 1/10, 1/10⟩⟩ : AABB).min.x) <
      max |(sweptData ⟨⟨0, 0, 0⟩, ⟨1/10, 1/10, 1/10⟩⟩ ⟨⟨5, 0, 0⟩, ⟨51/10, 1/10, 1/10⟩⟩
          ⟨0, 1, 0⟩ ⟨0, 0, 0⟩).xDistanceEntry|
        |(sweptData ⟨⟨0, 0, 0⟩, ⟨1/10, 1/10, 1/10⟩⟩ ⟨⟨5, 0, 0⟩, ⟨51/10, 1/10, 1/10⟩⟩
          ⟨0, 1, 0⟩ ⟨0, 0, 0⟩).xDistanceExit| := by
    norm_num [sweptData_xDistanceEntry, sweptData_xDistanceExit, xDist, entryExitDist,
      abs_of_nonneg]
  refine ⟨rfl, ?_, h.2.2 hbig⟩
  rw [h.1, if_pos hbig]

/-- Claim C2: the solver returns the sentinel time `2.0` with a zero normal
exactly when the latest entry exceeds the earliest exit, or all three axis
entry times are negative, or some axis entry time exceeds `1.0`; otherwise
it returns the latest entry time. -/
theorem claim2_theorem (box1 box2 : AABB) (vel1 n0 : Vec3) :
    (((sweptData box1 box2 vel1 n0).time = XQ.fin 2 ∧
        (sweptData box1 box2 vel1 n0).normal = ⟨0, 0, 0⟩) ↔
      (XQ.blt (sweptData box1 box2 vel1 n0).exitTime (sweptData box1 box2 vel1 n0).entryTime = true ∨
        (XQ.blt (sweptData box1 box2 vel1 n0).xEntryTime (XQ.fin 0) = true ∧
          XQ.blt (sweptData box1 box2 vel1 n0).yEntryTime (XQ.fin 0) = true ∧
          XQ.blt (sweptData box1 box2 vel1 n0).zEntryTime (XQ.fin 0) = true) ∨
        XQ.blt (XQ.fin 1) (sweptData box1 box2 vel1 n0).xEntryTime = true ∨
        XQ.blt (XQ.fin 1) (sweptData box1 box2 vel1 n0).yEntryTime = true ∨
        XQ.blt (XQ.fin 1) (sweptData box1 box2 vel1 n0).zEntryTime = true)) ∧
    (¬ (XQ.blt (sweptData box1 box2 vel1 n0).exitTime (sweptData box1 box2 vel1 n0).entryTime = true ∨
        (XQ.blt (sweptData box1 box2 vel1 n0).xEntryTime (XQ.fin 0) = true ∧
          XQ.blt (sweptData box1 box2 vel1 n0).yEntryTime (XQ.fin 0) = true ∧
          XQ.blt (sweptData box1 box2 vel1 n0).zEntryTime (XQ.fin 0) = true) ∨
        XQ.blt (XQ.fin 1) (sweptData box1 box2 vel1 n0).xEntryTime = true ∨
        XQ.blt (XQ.fin 1) (sweptData box1 box2 vel1 n0).yEntryTime = true ∨
        XQ.blt (XQ.fin 1) (sweptData box1 box2 vel1 n0).zEntryTime = true) →
      (sweptData box1 box2 vel1 n0).time = (sweptData box1 box2 vel1 n0).entryTime) := by
  have hiff : noCollTest box1 box2 vel1 = true ↔
      (XQ.blt (sweptData box1 box2 vel1 n0).exitTime (sweptData box1 box2 vel1 n0).entryTime = true ∨
        (XQ.blt (sweptData box1 box2 vel1 n0).xEntryTime (XQ.fin 0) = true ∧
          XQ.blt (sweptData box1 box2 vel1 n0).yEntryTime (XQ.fin 0) = true ∧
          XQ.blt (sweptData box1 box2 vel1 n0).zEntryTime (XQ.fin 0) = true) ∨
        XQ.blt (XQ.fin 1) (sweptData box1 box2 vel1 n0).xEntryTime = true ∨
        XQ.blt (XQ.fin 1) (sweptData box1 box2 vel1 n0).yEntryTime = true ∨
        XQ.blt (XQ.fin 1) (sweptData box1 box2 vel1 n0).zEntryTime = true) := by
    unfold noCollTest
    simp only [Bool.or_eq_true, Bool.and_eq_true, sweptData_xEntryTime, sweptData_yEntryTime,
      sweptData_zEntryTime, sweptData_entryTime, sweptData_exitTime]
    tauto
  constructor
  · constructor
    · rintro ⟨ht, -⟩
      by_cases hnc : noCollTest box1 box2 vel1 = true
      · exact hiff.mp hnc
      · exfalso
        have hnc' : noCollTest box1 box2 vel1 = false := by simpa using hnc
        obtain ⟨q, hq, h0, h1⟩ := entry_fin_of_noColl_false box1 box2 vel1 hnc'
        rw [sweptData_time, if_neg (by simp [hnc']), hq] at ht
        have : q = 2 := by
          simpa using ht
        linarith
    · intro hd
      have hnc := hiff.mpr hd
      rw [sweptData_time, if_pos hnc, sweptData_normal, if_pos hnc]
      exact ⟨rfl, rfl⟩
  · intro hd
    have hnc : noCollTest box1 box2 vel1 = false := by
      by_cases hnc : noCollTest box1 box2 vel1 = true
      · exact absurd (hiff.mp hnc) hd
      · simpa using hnc
    rw [sweptData_time, if_neg (by simp [hnc]), sweptData_entryTime]

/-- Claim C2 witness: separated boxes with zero displacement on x exceed
the `1.0` entry bound on x, so the sentinel and zero normal come back. -/
theorem claim2_witness :
    (sweptData ⟨⟨0, 0, 0⟩, ⟨1/10, 1/10, 1/10⟩⟩ ⟨⟨5, 0, 0⟩, ⟨51/10, 1/10, 1/10⟩⟩
        ⟨0, 1, 0⟩ ⟨7, 8, 9⟩).time = XQ.fin 2 ∧
    (sweptData ⟨⟨0, 0, 0⟩, ⟨1/10, 1/10, 1/10⟩⟩ ⟨⟨5, 0, 0⟩, ⟨51/10, 1/10, 1/10⟩⟩
        ⟨0, 1, 0⟩ ⟨7, 8, 9⟩).normal = ⟨0, 0, 0⟩ := by
  refine (claim2_theorem ⟨⟨0, 0, 0⟩, ⟨1/10, 1/10, 1/10⟩⟩ ⟨⟨5, 0, 0⟩, ⟨51/10, 1/10, 1/10⟩⟩
    ⟨0, 1, 0⟩ ⟨7, 8, 9⟩).1.mpr ?_
  refine Or.inr (Or.inr (Or.inl ?_))
  norm_num [sweptData_xEntryTime, xTimes, xDist, entryExitDist, entryExitTime,
    XQ.blt, abs_of_nonneg]

/-- Exactly one component has magnitude `1.0`, the other two are `0.0`. -/
def exactlyOneUnit (n : Vec3) : Prop :=
  (|n.x| = 1 ∧ n.y = 0 ∧ n.z = 0) ∨ (n.x = 0 ∧ |n.y| = 1 ∧ n.z = 0) ∨
    (n.x = 0 ∧ n.y = 0 ∧ |n.z| = 1)

theorem exactlyOneUnit_xvec (c : Prop) [Decidable c] :
    exactlyOneUnit (if c then (⟨1, 0, 0⟩ : Vec3) else ⟨-1, 0, 0⟩) := by
  unfold exactlyOneUnit
  split
  · left
    norm_num
  · left
    norm_num

theorem exactlyOneUnit_yvec (c : Prop) [Decidable c] :
    exactlyOneUnit (if c then (⟨0, 1, 0⟩ : Vec3) else ⟨0, -1, 0⟩) := by
  unfold exactlyOneUnit
  split
  · right
    left
    norm_num
  · right
    left
    norm_num

theorem exactlyOneUnit_zvec (c : Prop) [Decidable c] :
    exactlyOneUnit (if c then (⟨0, 0, 1⟩ : Vec3) else ⟨0, 0, -1⟩) := by
  unfold exactlyOneUnit
  split
  · right
    right
    norm_num
  · right
    right
    norm_num

/-- Claim C9: in the collision branch the cascade assigns the normal in at
most one arm.  A strict winner fully determines the normal independently of
the incoming out-parameter values; an exact tie of two axes for the latest
entry time makes every arm's guard false, so the incoming values fall
through unchanged. -/
theorem claim9_theorem (box1 box2 : AABB) (vel1 n0 : Vec3)
    (h : (sweptData box1 box2 vel1 n0).noCollision = false) :
    ((XQ.blt (sweptData box1 box2 vel1 n0).yEntryTime (sweptData box1 box2 vel1 n0).xEntryTime = true ∧
        XQ.blt (sweptData box1 box2 vel1 n0).zEntryTime (sweptData box1 box2 vel1 n0).xEntryTime = true →
      (sweptData box1 box2 vel1 n0).normal =
        (if (sweptData box1 box2 vel1 n0).xDistanceEntry < 0 then ⟨1, 0, 0⟩ else ⟨-1, 0, 0⟩)) ∧
     (XQ.blt (sweptData box1 box2 vel1 n0).xEntryTime (sweptData box1 box2 vel1 n0).yEntryTime = true ∧
        XQ.blt (sweptData box1 box2 vel1 n0).zEntryTime (sweptData box1 box2 vel1 n0).yEntryTime = true →
      (sweptData box1 box2 vel1 n0).normal =
        (if (sweptData box1 box2 vel1 n0).yDistanceEntry < 0 then ⟨0, 1, 0⟩ else ⟨0, -1, 0⟩)) ∧
     (XQ.blt (sweptData box1 box2 vel1 n0).xEntryTime (sweptData box1 box2 vel1 n0).zEntryTime = true ∧
        XQ.blt (sweptData box1 box2 vel1 n0).yEntryTime (sweptData box1 box2 vel1 n0).zEntryTime = true →
      (sweptData box1 box2 vel1 n0).normal =
        (if (sweptData box1 box2 vel1 n0).zDistanceEntry < 0 then ⟨0, 0, 1⟩ else ⟨0, 0, -1⟩))) ∧
    (((sweptData box1 box2 vel1 n0).xEntryTime = (sweptData box1 box2 vel1 n0).yEntryTime ∧
        (sweptData box1 box2 vel1 n0).entryTime = (sweptData box1 box2 vel1 n0).xEntryTime) ∨
      ((sweptData box1 box2 vel1 n0).xEntryTime = (sweptData box1 box2 vel1 n0).zEntryTime ∧
        (sweptData box1 box2 vel1 n0).entryTime = (sweptData box1 box2 vel1 n0).xEntryTime) ∨
      ((sweptData box1 box2 vel1 n0).yEntryTime = (sweptData box1 box2 vel1 n0).zEntryTime ∧
        (sweptData box1 box2 vel1 n0).entryTime = (sweptData box1 box2 vel1 n0).yEntryTime) →
      (sweptData box1 box2 vel1 n0).normal = n0) := by
  rw [sweptData_noCollision] at h
  simp only [sweptData_normal, sweptData_xEntryTime, sweptData_yEntryTime, sweptData_zEntryTime,
    sweptData_entryTime, sweptData_xDistanceEntry, sweptData_yDistanceEntry,
    sweptData_zDistanceEntry, h, Bool.false_eq_true, if_false]
  refine ⟨⟨?_, ?_, ?_⟩, ?_⟩
  · rintro ⟨h1, h2⟩
    exact collisionNormal_xwin h1 h2
  · rintro ⟨h1, h2⟩
    exact collisionNormal_ywin h1 h2
  · rintro ⟨h1, h2⟩
    exact collisionNormal_zwin h1 h2
  · intro htie
    apply collisionNormal_tie
    rcases htie with ⟨heq, hmax⟩ | ⟨heq, hmax⟩ | ⟨heq, hmax⟩
    · refine Or.inl ⟨heq, ?_⟩
      rw [← hmax]
      exact XQ.bmax_notlt_right _ _
    · refine Or.inr (Or.inl ⟨heq, ?_⟩)
      rw [← hmax]
      exact XQ.notlt_trans (XQ.bmax_notlt_left _ _) (XQ.bmax_notlt_right _ _)
    · refine Or.inr (Or.inr ⟨heq, ?_⟩)
      rw [← hmax]
      exact XQ.notlt_trans (XQ.bmax_notlt_left _ _) (XQ.bmax_notlt_left _ _)

/-- Claim C9 witness: a strict y-axis winner determines the normal in spite
of garbage incoming out-parameter values. -/
theorem claim9_witness :
    (sweptData ⟨⟨-1/10, -1/10, -1/10⟩, ⟨1/10, 1/10, 1/10⟩⟩
        ⟨⟨-1/10, 19/10, -1/10⟩, ⟨1/10, 21/10, 1/10⟩⟩ ⟨0, 5, 0⟩ ⟨3, 3, 3⟩).noCollision = false ∧
    (sweptData ⟨⟨-1/10, -1/10, -1/10⟩, ⟨1/10, 1/10, 1/10⟩⟩
        ⟨⟨-1/10, 19/10, -1/10⟩, ⟨1/10, 21/10, 1/10⟩⟩ ⟨0, 5, 0⟩ ⟨3, 3, 3⟩).normal = ⟨0, -1, 0⟩ := by
  have h1 : (sweptData ⟨⟨-1/10, -1/10, -1/10⟩, ⟨1/10, 1/10, 1/10⟩⟩
      ⟨⟨-1/10, 19/10, -1/10⟩, ⟨1/10, 21/10, 1/10⟩⟩ ⟨0, 5, 0⟩ ⟨3, 3, 3⟩).noCollision = false := by
    norm_num [sweptData_noCollision, noCollTest, xTimes, yTimes, zTimes, xDist, yDist, zDist,
      entryExitDist, entryExitTime, XQ.blt, XQ.bmax, XQ.bmin, abs_of_nonneg, abs_of_nonpos]
  have hwy : XQ.blt (sweptData ⟨⟨-1/10, -1/10, -1/10⟩, ⟨1/10, 1/10, 1/10⟩⟩
      ⟨⟨-1/10, 19/10, -1/10⟩, ⟨1/10, 21/10, 1/10⟩⟩ ⟨0, 5, 0⟩ ⟨3, 3, 3⟩).xEntryTime
      (sweptData ⟨⟨-1/10, -1/10, -1/10⟩, ⟨1/10, 1/10, 1/10⟩⟩
      ⟨⟨-1/10, 19/10, -1/10⟩, ⟨1/10, 21/10, 1/10⟩⟩ ⟨0, 5, 0⟩ ⟨3, 3, 3⟩).yEntryTime = true ∧
      XQ.blt (sweptData ⟨⟨-1/10, -1/10, -1/10⟩, ⟨1/10, 1/10, 1/10⟩⟩
      ⟨⟨-1/10, 19/10, -1/10⟩, ⟨1/10, 21/10, 1/10⟩⟩ ⟨0, 5, 0⟩ ⟨3, 3, 3⟩).zEntryTime
      (sweptData ⟨⟨-1/10, -1/10, -1/10⟩, ⟨1/10, 1/10, 1/10⟩⟩
      ⟨⟨-1/10, 19/10, -1/10⟩, ⟨1/10, 21/10, 1/10⟩⟩ ⟨0, 5, 0⟩ ⟨3, 3, 3⟩).yEntryTime = true := by
    constructor <;>
      norm_num [sweptData_xEntryTime, sweptData_yEntryTime, sweptData_zEntryTime,
        xTimes, yTimes, zTimes, xDist, yDist, zDist, entryExitDist, entryExitTime,
        XQ.blt, abs_of_nonneg, abs_of_nonpos]
  have H := (claim9_theorem ⟨⟨-1/10, -1/10, -1/10⟩, ⟨1/10, 1/10, 1/10⟩⟩
    ⟨⟨-1/10, 19/10, -1/10⟩, ⟨1/10, 21/10, 1/10⟩⟩ ⟨0, 5, 0⟩ ⟨3, 3, 3⟩ h1).1.2.1 hwy
  refine ⟨h1, ?_⟩
  rw [H, if_neg ?_]
  norm_num [sweptData_yDistanceEntry, yDist, entryExitDist]

/-- Claim C1 counterexample: a collision with the x axis as strict winner
whose x entry distance is exactly zero.  The code assigns `normalx = -1`,
but the negative of the sign of a zero entry distance is `0`, so the sign
clause of the claim fails. -/
theorem claim1_counterexample :
    (sweptData ⟨⟨-1, -1, -1⟩, ⟨0, 0, 0⟩⟩ ⟨⟨0, -1, -1⟩, ⟨1, 0, 0⟩⟩ ⟨1, 0, 0⟩ ⟨0, 0, 0⟩).noCollision = false ∧
    XQ.blt (sweptData ⟨⟨-1, -1, -1⟩, ⟨0, 0, 0⟩⟩ ⟨⟨0, -1, -1⟩, ⟨1, 0, 0⟩⟩ ⟨1, 0, 0⟩ ⟨0, 0, 0⟩).yEntryTime
      (sweptData ⟨⟨-1, -1, -1⟩, ⟨0, 0, 0⟩⟩ ⟨⟨0, -1, -1⟩, ⟨1, 0, 0⟩⟩ ⟨1, 0, 0⟩ ⟨0, 0, 0⟩).xEntryTime = true ∧
    XQ.blt (sweptData ⟨⟨-1, -1, -1⟩, ⟨0, 0, 0⟩⟩ ⟨⟨0, -1, -1⟩, ⟨1, 0, 0⟩⟩ ⟨1, 0, 0⟩ ⟨0, 0, 0⟩).zEntryTime
      (sweptData ⟨⟨-1, -1, -1⟩, ⟨0, 0, 0⟩⟩ ⟨⟨0, -1, -1⟩, ⟨1, 0, 0⟩⟩ ⟨1, 0, 0⟩ ⟨0, 0, 0⟩).xEntryTime = true ∧
    (sweptData ⟨⟨-1, -1, -1⟩, ⟨0, 0, 0⟩⟩ ⟨⟨0, -1, -1⟩, ⟨1, 0, 0⟩⟩ ⟨1, 0, 0⟩ ⟨0, 0, 0⟩).xDistanceEntry = 0 ∧
    (sweptData ⟨⟨-1, -1, -1⟩, ⟨0, 0, 0⟩⟩ ⟨⟨0, -1, -1⟩, ⟨1, 0, 0⟩⟩ ⟨1, 0, 0⟩ ⟨0, 0, 0⟩).normal.x = -1 ∧
    sgn ((sweptData ⟨⟨-1, -1, -1⟩, ⟨0, 0, 0⟩⟩ ⟨⟨0, -1, -1⟩, ⟨1, 0, 0⟩⟩ ⟨1, 0, 0⟩ ⟨0, 0, 0⟩).normal.x) ≠
      -sgn ((sweptData ⟨⟨-1, -1, -1⟩, ⟨0, 0, 0⟩⟩ ⟨⟨0, -1, -1⟩, ⟨1, 0, 0⟩⟩ ⟨1, 0, 0⟩ ⟨0, 0, 0⟩).xDistanceEntry) := by
  refine ⟨?_, ?_, ?_, ?_, ?_, ?_⟩ <;>
    norm_num [sweptData_noCollision, sweptData_normal, sweptData_xEntryTime, sweptData_yEntryTime,
      sweptData_zEntryTime, sweptData_xDistanceEntry, noCollTest, collisionNormal,
      xTimes, yTimes, zTimes, xDist, yDist, zDist, entryExitDist, entryExitTime, sgn,
      XQ.blt, XQ.bmax, XQ.bmin, abs_of_nonneg, abs_of_nonpos]

/-- Claim C1 amended: whenever the collision branch is taken and one axis
strictly achieves the latest entry time, the returned time is a finite
value in `[0, 1]` and exactly one normal component has magnitude `1.0`
with the other two `0.0`; the winning component is `+1` when the winning
axis's entry distance is negative and `-1` otherwise (a zero entry
distance yields `-1`). -/
theorem claim1_theorem (box1 box2 : AABB) (vel1 n0 : Vec3)
    (h : (sweptData box1 box2 vel1 n0).noCollision = false)
    (hwin :
      (XQ.blt (sweptData box1 box2 vel1 n0).yEntryTime (sweptData box1 box2 vel1 n0).xEntryTime = true ∧
        XQ.blt (sweptData box1 box2 vel1 n0).zEntryTime (sweptData box1 box2 vel1 n0).xEntryTime = true) ∨
      (XQ.blt (sweptData box1 box2 vel1 n0).xEntryTime (sweptData box1 box2 vel1 n0).yEntryTime = true ∧
        XQ.blt (sweptData box1 box2 vel1 n0).zEntryTime (sweptData box1 box2 vel1 n0).yEntryTime = true) ∨
      (XQ.blt (sweptData box1 box2 vel1 n0).xEntryTime (sweptData box1 box2 vel1 n0).zEntryTime = true ∧
        XQ.blt (sweptData box1 box2 vel1 n0).yEntryTime (sweptData box1 box2 vel1 n0).zEntryTime = true)) :
    (∃ q, (sweptData box1 box2 vel1 n0).time = XQ.fin q ∧ 0 ≤ q ∧ q ≤ 1) ∧
    exactlyOneUnit (sweptData box1 box2 vel1 n0).normal ∧
    ((XQ.blt (sweptData box1 box2 vel1 n0).yEntryTime (sweptData box1 box2 vel1 n0).xEntryTime = true ∧
        XQ.blt (sweptData box1 box2 vel1 n0).zEntryTime (sweptData box1 box2 vel1 n0).xEntryTime = true →
      (sweptData box1 box2 vel1 n0).normal =
        (if (sweptData box1 box2 vel1 n0).xDistanceEntry < 0 then ⟨1, 0, 0⟩ else ⟨-1, 0, 0⟩)) ∧
     (XQ.blt (sweptData box1 box2 vel1 n0).xEntryTime (sweptData box1 box2 vel1 n0).yEntryTime = true ∧
        XQ.blt (sweptData box1 box2 vel1 n0).zEntryTime (sweptData box1 box2 vel1 n0).yEntryTime = true →
      (sweptData box1 box2 vel1 n0).normal =
        (if (sweptData box1 box2 vel1 n0).yDistanceEntry < 0 then ⟨0, 1, 0⟩ else ⟨0, -1, 0⟩)) ∧
     (XQ.blt (sweptData box1 box2 vel1 n0).xEntryTime (sweptData box1 box2 vel1 n0).zEntryTime = true ∧
        XQ.blt (sweptData box1 box2 vel1 n0).yEntryTime (sweptData box1 box2 vel1 n0).zEntryTime = true →
      (sweptData box1 box2 vel1 n0).normal =
        (if (sweptData box1 box2 vel1 n0).zDistanceEntry < 0 then ⟨0, 0, 1⟩ else ⟨0, 0, -1⟩))) := by
  have hnc : noCollTest box1 box2 vel1 = false := by
    rw [sweptData_noCollision] at h
    exact h
  have hnorm : (sweptData box1 box2 vel1 n0).normal =
      collisionNormal (xTimes box1 box2 vel1).1 (yTimes box1 box2 vel1).1
        (zTimes box1 box2 vel1).1 (xDist box1 box2 vel1).1 (yDist box1 box2 vel1).1
        (zDist box1 box2 vel1).1 n0 := by
    rw [sweptData_normal, if_neg (by simp [hnc])]
  have harms :
      ((XQ.blt (sweptData box1 box2 vel1 n0).yEntryTime (sweptData box1 box2 vel1 n0).xEntryTime = true ∧
          XQ.blt (sweptData box1 box2 vel1 n0).zEntryTime (sweptData box1 box2 vel1 n0).xEntryTime = true →
        (sweptData box1 box2 vel1 n0).normal =
          (if (sweptData box1 box2 vel1 n0).xDistanceEntry < 0 then ⟨1, 0, 0⟩ else ⟨-1, 0, 0⟩)) ∧
       (XQ.blt (sweptData box1 box2 vel1 n0).xEntryTime (sweptData box1 box2 vel1 n0).yEntryTime = true ∧
          XQ.blt (sweptData box1 box2 vel1 n0).zEntryTime (sweptData box1 box2 vel1 n0).yEntryTime = true →
        (sweptData box1 box2 vel1 n0).normal =
          (if (sweptData box1 box2 vel1 n0).yDistanceEntry < 0 then ⟨0, 1, 0⟩ else ⟨0, -1, 0⟩)) ∧
       (XQ.blt (sweptData box1 box2 vel1 n0).xEntryTime (sweptData box1 box2 vel1 n0).zEntryTime = true ∧
          XQ.blt (sweptData box1 box2 vel1 n0).yEntryTime (sweptData box1 box2 vel1 n0).zEntryTime = true →
        (sweptData box1 box2 vel1 n0).normal =
          (if (sweptData box1 box2 vel1 n0).zDistanceEntry < 0 then ⟨0, 0, 1⟩ else ⟨0, 0, -1⟩))) := by
    refine ⟨?_, ?_, ?_⟩
    · rintro ⟨h1, h2⟩
      rw [hnorm]
      exact collisionNormal_xwin h1 h2
    · rintro ⟨h1, h2⟩
      rw [hnorm]
      exact collisionNormal_ywin h1 h2
    · rintro ⟨h1, h2⟩
      rw [hnorm]
      exact collisionNormal_zwin h1 h2
  refine ⟨?_, ?_, harms⟩
  · obtain ⟨q, hq, h0, h1⟩ := entry_fin_of_noColl_false box1 box2 vel1 hnc
    refine ⟨q, ?_, h0, h1⟩
    rw [sweptData_time, if_neg (by simp [hnc]), hq]
  · rcases hwin with hw | hw | hw
    · rw [harms.1 hw]
      exact exactlyOneUnit_xvec _
    · rw [harms.2.1 hw]
      exact exactlyOneUnit_yvec _
    · rw [harms.2.2 hw]
      exact exactlyOneUnit_zvec _

/-- Claim C1 witness: a strict y-winner collision; the entry distance is
positive so the winning component is `-1`, the others `0`, time `0.36`. -/
theorem claim1_witness :
    (sweptData ⟨⟨-1/10, -1/10, -1/10⟩, ⟨1/10, 1/10, 1/10⟩⟩
        ⟨⟨-1/10, 19/10, -1/10⟩, ⟨1/10, 21/10, 1/10⟩⟩ ⟨0, 5, 0⟩ ⟨7, 7, 7⟩).noCollision = false ∧
    (∃ q, (sweptData ⟨⟨-1/10, -1/10, -1/10⟩, ⟨1/10, 1/10, 1/10⟩⟩
        ⟨⟨-1/10, 19/10, -1/10⟩, ⟨1/10, 21/10, 1/10⟩⟩ ⟨0, 5, 0⟩ ⟨7, 7, 7⟩).time = XQ.fin q ∧
      0 ≤ q ∧ q ≤ 1) ∧
    exactlyOneUnit (sweptData ⟨⟨-1/10, -1/10, -1/10⟩, ⟨1/10, 1/10, 1/10⟩⟩
        ⟨⟨-1/10, 19/10, -1/10⟩, ⟨1/10, 21/10, 1/10⟩⟩ ⟨0, 5, 0⟩ ⟨7, 7, 7⟩).normal := by
  have h1 : (sweptData ⟨⟨-1/10, -1/10, -1/10⟩, ⟨1/10, 1/10, 1/10⟩⟩
      ⟨⟨-1/10, 19/10, -1/10⟩, ⟨1/10, 21/10, 1/10⟩⟩ ⟨0, 5, 0⟩ ⟨7, 7, 7⟩).noCollision = false := by
    norm_num [sweptData_noCollision, noCollTest, xTimes, yTimes, zTimes, xDist, yDist, zDist,
      entryExitDist, entryExitTime, XQ.blt, XQ.bmax, XQ.bmin, abs_of_nonneg, abs_of_nonpos]
  have hwy : XQ.blt (sweptData ⟨⟨-1/10, -1/10, -1/10⟩, ⟨1/10, 1/10, 1/10⟩⟩
      ⟨⟨-1/10, 19/10, -1/10⟩, ⟨1/10, 21/10, 1/10⟩⟩ ⟨0, 5, 0⟩ ⟨7, 7, 7⟩).xEntryTime
      (sweptData ⟨⟨-1/10, -1/10, -1/10⟩, ⟨1/10, 1/10, 1/10⟩⟩
      ⟨⟨-1/10, 19/10, -1/10⟩, ⟨1/10, 21/10, 1/10⟩⟩ ⟨0, 5, 0⟩ ⟨7, 7, 7⟩).yEntryTime = true ∧
      XQ.blt (sweptData ⟨⟨-1/10, -1/10, -1/10⟩, ⟨1/10, 1/10, 1/10⟩⟩
      ⟨⟨-1/10, 19/10, -1/10⟩, ⟨1/10, 21/10, 1/10⟩⟩ ⟨0, 5, 0⟩ ⟨7, 7, 7⟩).zEntryTime
      (sweptData ⟨⟨-1/10, -1/10, -1/10⟩, ⟨1/10, 1/10, 1/10⟩⟩
      ⟨⟨-1/10, 19/10, -1/10⟩, ⟨1/10, 21/10, 1/10⟩⟩ ⟨0, 5, 0⟩ ⟨7, 7, 7⟩).yEntryTime = true := by
    constructor <;>
      norm_num [sweptData_xEntryTime, sweptData_yEntryTime, sweptData_zEntryTime,
        xTimes, yTimes, zTimes, xDist, yDist, zDist, entryExitDist, entryExitTime,
        XQ.blt, abs_of_nonneg, abs_of_nonpos]
  have H := claim1_theorem ⟨⟨-1/10, -1/10, -1/10⟩, ⟨1/10, 1/10, 1/10⟩⟩
    ⟨⟨-1/10, 19/10, -1/10⟩, ⟨1/10, 21/10, 1/10⟩⟩ ⟨0, 5, 0⟩ ⟨7, 7, 7⟩ h1 (Or.inr (Or.inl hwy))
  exact ⟨h1, H.1, H.2.1⟩

/-- The positive-dt branch of `checkTime`, written out. -/
theorem checkTime_pos {α : Type} (f : α → α) (tm : ℚ) (s : SchedState) (w : α)
    (hdt : physicsStep < tm - s.timebase) :
    checkTime f tm s w =
      ({ frame := if 1 < tm - s.FPSTime then 0 else s.frame
         timebase := tm
         accumulator := (runTicks f (s.accumulator +
           (if 1/4 < tm - s.timebase then (1/4:ℚ) else tm - s.timebase)) w).1
         fps := if 1 < tm - s.FPSTime then ⌊(s.frame : ℚ) / (tm - s.FPSTime)⌋ else s.fps
         FPSTime := if 1 < tm - s.FPSTime then tm else s.FPSTime },
       (runTicks f (s.accumulator +
         (if 1/4 < tm - s.timebase then (1/4:ℚ) else tm - s.timebase)) w).2) := by
  simp only [checkTime]
  rw [if_pos hdt]

/-- Claim C5: when a `checkTime` pass observes `dt` above the physics step,
it adds `min dt 0.25` to the accumulator, runs one tick per whole
`physicsStep` contained in it (subtracting the step each time), and leaves
an accumulator in `[0, physicsStep)`. -/
theorem claim5_theorem {α : Type} (f : α → α) (tm : ℚ) (s : SchedState) (w : α)
    (hacc : 0 ≤ s.accumulator) (hdt : physicsStep < tm - s.timebase) :
    (checkTime f tm s w).1.accumulator =
      (s.accumulator + min (tm - s.timebase) (1/4)) -
        physicsStep * ⌊(s.accumulator + min (tm - s.timebase) (1/4)) / physicsStep⌋ ∧
    0 ≤ (checkTime f tm s w).1.accumulator ∧
    (checkTime f tm s w).1.accumulator < physicsStep ∧
    (checkTime f tm s w).2 =
      f^[(⌊(s.accumulator + min (tm - s.timebase) (1/4)) / physicsStep⌋).toNat] w := by
  have hp : (0:ℚ) < physicsStep := by norm_num [physicsStep]
  have hA0 : 0 ≤ s.accumulator + min (tm - s.timebase) (1/4) := by
    have hm : (0:ℚ) < min (tm - s.timebase) (1/4) := lt_min (by linarith) (by norm_num)
    linarith
  have hclamp : (if 1/4 < tm - s.timebase then (1/4 : ℚ) else tm - s.timebase) =
      min (tm - s.timebase) (1/4) := by
    rcases le_or_lt (tm - s.timebase) (1/4) with hc | hc
    · rw [if_neg (not_lt.mpr hc), min_eq_left hc]
    · rw [if_pos hc, min_eq_right hc.le]
  have hrun := runTicks_spec f (s.accumulator + min (tm - s.timebase) (1/4)) w hA0
  rw [checkTime_pos f tm s w hdt]
  dsimp only
  rw [hclamp, hrun]
  exact ⟨rfl, (leftover_bounds _).1, (leftover_bounds _).2, rfl⟩

/-- Claim C5 witness: a frame of `0.1` seconds against step `0.012` runs
eight ticks and leaves `0.004` in the accumulator. -/
theorem claim5_witness :
    0 ≤ ((⟨0, 0, 0, 0, 0⟩ : SchedState)).accumulator ∧
    physicsStep < (1/10 : ℚ) - (⟨0, 0, 0, 0, 0⟩ : SchedState).timebase ∧
    (checkTime Nat.succ (1/10) ⟨0, 0, 0, 0, 0⟩ 0).1.accumulator = 1/250 ∧
    (checkTime Nat.succ (1/10) ⟨0, 0, 0, 0, 0⟩ 0).2 = 8 := by
  have hdt : physicsStep < (1/10 : ℚ) - (⟨0, 0, 0, 0, 0⟩ : SchedState).timebase := by
    norm_num [physicsStep]
  have H := claim5_theorem Nat.succ (1/10) ⟨0, 0, 0, 0, 0⟩ 0 le_rfl hdt
  have hmin : min ((1/10 : ℚ) - (⟨0, 0, 0, 0, 0⟩ : SchedState).timebase) (1/4) = 1/10 := by
    rw [show (1/10 : ℚ) - (⟨0, 0, 0, 0, 0⟩ : SchedState).timebase = 1/10 by norm_num]
    exact min_eq_left (by norm_num)
  have hdivv : ((⟨0, 0, 0, 0, 0⟩ : SchedState).accumulator +
      min ((1/10 : ℚ) - (⟨0, 0, 0, 0, 0⟩ : SchedState).timebase) (1/4)) / physicsStep = 25/3 := by
    rw [hmin]
    norm_num [physicsStep]
  have hfl : ⌊((⟨0, 0, 0, 0, 0⟩ : SchedState).accumulator +
      min ((1/10 : ℚ) - (⟨0, 0, 0, 0, 0⟩ : SchedState).timebase) (1/4)) / physicsStep⌋ = 8 := by
    rw [hdivv, Int.floor_eq_iff]
    constructor <;> norm_num
  refine ⟨le_rfl, hdt, ?_, ?_⟩
  · rw [H.1, hfl, hmin]
    norm_num [physicsStep]
  · rw [H.2.2.2, hfl]
    rfl

/-! ### Facts about the tick -/

theorem flip_sq (c : Prop) [Decidable c] (a : ℚ) :
    (if c then -1 * a else a) ^ 2 = a ^ 2 := by
  split
  · ring
  · ring

/-- Inside the world boundary, the boundary check leaves the body unchanged. -/
theorem boundaryReflect_inbounds (b : Body) (hbx : ¬ (9/10 < |b.pos.x|))
    (hby : ¬ (4/5 < |b.pos.y|)) (hbz : ¬ (1 < |b.pos.z|)) :
    boundaryReflect b = b := by
  simp only [boundaryReflect]
  rw [if_neg hbx, if_neg hby, if_neg hbz]

theorem scale_split (a dt : ℚ) (p v : Vec3) :
    p + Vec3.scale (a * dt) v + Vec3.scale ((1 - a) * dt) v = p + Vec3.scale dt v := by
  cases p
  cases v
  simp only [Vec3.scale, Vec3.add_def, Vec3.mk.injEq]
  refine ⟨by ring, by ring, by ring⟩

/-- Claim C10: the stationary reference body undergoes the same net motion
in both branches of a tick: its velocity is never modified, and the two
partial integrations of the collision branch add up to the no-collision
branch's single full integration. -/
theorem claim10_theorem (g : Vec3 → Vec3 → AABB) (r n0 : Vec3) (dt : ℚ) (w : World) :
    (update g r n0 dt w).1.obj1.vel = w.obj1.vel ∧
    (update g r n0 dt w).1.obj1.pos = w.obj1.pos + Vec3.scale dt w.obj1.vel := by
  obtain ⟨q, hq, -⟩ := sweptData_time_fin (prepared g r w).obj2.aabb (prepared g r w).obj1.aabb
    (Vec3.scale dt (prepared g r w).obj2.vel) n0
  have hq' : (tickSwept g r n0 dt w).time = XQ.fin q := hq
  simp only [update]
  rw [hq']
  simp only [XQ.oneSub, XQ.toQ]
  split
  · constructor
    · simp [Body.update, prepared, Body.rotate, Body.calcAABB]
    · simp only [Body.update, prepared, Body.rotate, Body.calcAABB]
      exact scale_split q dt w.obj1.pos w.obj1.vel
  · constructor
    · simp [Body.update, prepared, Body.rotate, Body.calcAABB]
    · simp [Body.update, prepared, Body.rotate, Body.calcAABB]

/-- Claim C8 counterexample: the observable step order of a tick is
boundary check, rotation, AABB recompute, solver call, which differs from
the claimed order rotation, AABB recompute, boundary check, solver call. -/
theorem claim8_counterexample :
    ((update (fun _ p => ⟨p, p⟩) ⟨1, 1, 0⟩ ⟨0, 0, 0⟩ (3/250)
        ⟨⟨⟨0, 0, 0⟩, ⟨0, 0, 0⟩, ⟨0, 0, 0⟩, ⟨⟨0, 0, 0⟩, ⟨0, 0, 0⟩⟩⟩,
          ⟨⟨0, 0, 0⟩, ⟨0, 0, 0⟩, ⟨0, 0, 0⟩, ⟨⟨0, 0, 0⟩, ⟨0, 0, 0⟩⟩⟩⟩).2).take 4 =
      [Ev.boundaryCheck, Ev.rotateBodies, Ev.recomputeAABB, Ev.sweptCall] ∧
    [Ev.boundaryCheck, Ev.rotateBodies, Ev.recomputeAABB, Ev.sweptCall] ≠
      [Ev.rotateBodies, Ev.recomputeAABB, Ev.boundaryCheck, Ev.sweptCall] := by
  constructor
  · simp only [update]
    split
    · rfl
    · rfl
  · decide

/-- Claim C8 amended: every tick performs its steps in the order
(c) world-boundary velocity-reflect check, then (a) fixed per-tick
rotation of both bodies, then (b) recomputation of both AABBs, then
(d) the `SweptAABB` call with displacement velocity times `dt`. -/
theorem claim8_theorem (g : Vec3 → Vec3 → AABB) (r n0 : Vec3) (dt : ℚ) (w : World) :
    ((update g r n0 dt w).2).take 4 =
      [Ev.boundaryCheck, Ev.rotateBodies, Ev.recomputeAABB, Ev.sweptCall] := by
  simp only [update]
  split
  · rfl
  · rfl

/-- Claim C7: in the collision branch, with the boundary check not
triggering, each velocity component of the moving body whose normal
component passes the epsilon has exactly its sign flipped, the others are
unchanged, and the squared speed is preserved exactly. -/
theorem claim7_theorem (g : Vec3 → Vec3 → AABB) (r n0 : Vec3) (dt : ℚ) (w : World) (q : ℚ)
    (hbx : ¬ (9/10 < |w.obj2.pos.x|)) (hby : ¬ (4/5 < |w.obj2.pos.y|))
    (hbz : ¬ (1 < |w.obj2.pos.z|))
    (ht : (tickSwept g r n0 dt w).time = XQ.fin q) (h0 : 0 ≤ q) (h1 : q ≤ 1) :
    (update g r n0 dt w).1.obj2.vel.x =
      (if 1/10000 < |(tickSwept g r n0 dt w).normal.x| then -1 * w.obj2.vel.x else w.obj2.vel.x) ∧
    (update g r n0 dt w).1.obj2.vel.y =
      (if 1/10000 < |(tickSwept g r n0 dt w).normal.y| then -1 * w.obj2.vel.y else w.obj2.vel.y) ∧
    (update g r n0 dt w).1.obj2.vel.z =
      (if 1/10000 < |(tickSwept g r n0 dt w).normal.z| then -1 * w.obj2.vel.z else w.obj2.vel.z) ∧
    (update g r n0 dt w).1.obj2.vel.x ^ 2 + (update g r n0 dt w).1.obj2.vel.y ^ 2 +
        (update g r n0 dt w).1.obj2.vel.z ^ 2 =
      w.obj2.vel.x ^ 2 + w.obj2.vel.y ^ 2 + w.obj2.vel.z ^ 2 := by
  have hb : boundaryReflect w.obj2 = w.obj2 := boundaryReflect_inbounds w.obj2 hbx hby hbz
  have hwp : (prepared g r w).obj2.vel = w.obj2.vel := by
    simp [prepared, hb, Body.rotate, Body.calcAABB]
  have hbranch : XQ.ble (XQ.fin 0) (XQ.oneSub (tickSwept g r n0 dt w).time) = true := by
    rw [ht]
    simp only [XQ.oneSub, XQ.ble, decide_eq_true_eq]
    linarith
  have hv : (update g r n0 dt w).1.obj2.vel =
      bounceVel (tickSwept g r n0 dt w).normal (prepared g r w).obj2.vel := by
    simp only [update]
    rw [if_pos hbranch]
    simp [Body.update]
  rw [hv, hwp]
  unfold bounceVel
  refine ⟨rfl, rfl, rfl, ?_⟩
  dsimp only
  rw [flip_sq, flip_sq, flip_sq]

/-- Claim C7 witness: a head-on z-axis collision at half the tick; the
z velocity component flips sign and the squared speed is preserved. -/
theorem claim7_witness :
    (tickSwept (fun _ p => ⟨p + ⟨-1/10, -1/10, -1/10⟩, p + ⟨1/10, 1/10, 1/10⟩⟩) ⟨1, 1, 0⟩ ⟨0, 0, 0⟩ (12/1000) ⟨⟨⟨0, 0, 0⟩, ⟨0, 0, 0⟩, ⟨0, 0, 0⟩, ⟨⟨0, 0, 0⟩, ⟨0, 0, 0⟩⟩⟩, ⟨⟨0, 0, 1/2⟩, ⟨0, 0, -50⟩, ⟨0, 0, 0⟩, ⟨⟨0, 0, 0⟩, ⟨0, 0, 0⟩⟩⟩⟩).time = XQ.fin (1/2) ∧
    (update (fun _ p => ⟨p + ⟨-1/10, -1/10, -1/10⟩, p + ⟨1/10, 1/10, 1/10⟩⟩) ⟨1, 1, 0⟩ ⟨0, 0, 0⟩ (12/1000) ⟨⟨⟨0, 0, 0⟩, ⟨0, 0, 0⟩, ⟨0, 0, 0⟩, ⟨⟨0, 0, 0⟩, ⟨0, 0, 0⟩⟩⟩, ⟨⟨0, 0, 1/2⟩, ⟨0, 0, -50⟩, ⟨0, 0, 0⟩, ⟨⟨0, 0, 0⟩, ⟨0, 0, 0⟩⟩⟩⟩).1.obj2.vel.x =
      (if 1/10000 < |(tickSwept (fun _ p => ⟨p + ⟨-1/10, -1/10, -1/10⟩, p + ⟨1/10, 1/10, 1/10⟩⟩) ⟨1, 1, 0⟩ ⟨0, 0, 0⟩ (12/1000) ⟨⟨⟨0, 0, 0⟩, ⟨0, 0, 0⟩, ⟨0, 0, 0⟩, ⟨⟨0, 0, 0⟩, ⟨0, 0, 0⟩⟩⟩, ⟨⟨0, 0, 1/2⟩, ⟨0, 0, -50⟩, ⟨0, 0, 0⟩, ⟨⟨0, 0, 0⟩, ⟨0, 0, 0⟩⟩⟩⟩).normal.x| then
        -1 * ((⟨⟨⟨0, 0, 0⟩, ⟨0, 0, 0⟩, ⟨0, 0, 0⟩, ⟨⟨0, 0, 0⟩, ⟨0, 0, 0⟩⟩⟩, ⟨⟨0, 0, 1/2⟩, ⟨0, 0, -50⟩, ⟨0, 0, 0⟩, ⟨⟨0, 0, 0⟩, ⟨0, 0, 0⟩⟩⟩⟩ : World)).obj2.vel.x else ((⟨⟨⟨0, 0, 0⟩, ⟨0, 0, 0⟩, ⟨0, 0, 0⟩, ⟨⟨0, 0, 0⟩, ⟨0, 0, 0⟩⟩⟩, ⟨⟨0, 0, 1/2⟩, ⟨0, 0, -50⟩, ⟨0, 0, 0⟩, ⟨⟨0, 0, 0⟩, ⟨0, 0, 0⟩⟩⟩⟩ : World)).obj2.vel.x) ∧
    (update (fun _ p => ⟨p + ⟨-1/10, -1/10, -1/10⟩, p + ⟨1/10, 1/10, 1/10⟩⟩) ⟨1, 1, 0⟩ ⟨0, 0, 0⟩ (12/1000) ⟨⟨⟨0, 0, 0⟩, ⟨0, 0, 0⟩, ⟨0, 0, 0⟩, ⟨⟨0, 0, 0⟩, ⟨0, 0, 0⟩⟩⟩, ⟨⟨0, 0, 1/2⟩, ⟨0, 0, -50⟩, ⟨0, 0, 0⟩, ⟨⟨0, 0, 0⟩, ⟨0, 0, 0⟩⟩⟩⟩).1.obj2.vel.y =
      (if 1/10000 < |(tickSwept (fun _ p => ⟨p + ⟨-1/10, -1/10, -1/10⟩, p + ⟨1/10, 1/10, 1/10⟩⟩) ⟨1, 1, 0⟩ ⟨0, 0, 0⟩ (12/1000) ⟨⟨⟨0, 0, 0⟩, ⟨0, 0, 0⟩, ⟨0, 0, 0⟩, ⟨⟨0, 0, 0⟩, ⟨0, 0, 0⟩⟩⟩, ⟨⟨0, 0, 1/2⟩, ⟨0, 0, -50⟩, ⟨0, 0, 0⟩, ⟨⟨0, 0, 0⟩, ⟨0, 0, 0⟩⟩⟩⟩).normal.y| then
        -1 * ((⟨⟨⟨0, 0, 0⟩, ⟨0, 0, 0⟩, ⟨0, 0, 0⟩, ⟨⟨0, 0, 0⟩, ⟨0, 0, 0⟩⟩⟩, ⟨⟨0, 0, 1/2⟩, ⟨0, 0, -50⟩, ⟨0, 0, 0⟩, ⟨⟨0, 0, 0⟩, ⟨0, 0, 0⟩⟩⟩⟩ : World)).obj2.vel.y else ((⟨⟨⟨0, 0, 0⟩, ⟨0, 0, 0⟩, ⟨0, 0, 0⟩, ⟨⟨0, 0, 0⟩, ⟨0, 0, 0⟩⟩⟩, ⟨⟨0, 0, 1/2⟩, ⟨0, 0, -50⟩, ⟨0, 0, 0⟩, ⟨⟨0, 0, 0⟩, ⟨0, 0, 0⟩⟩⟩⟩ : World)).obj2.vel.y) ∧
    (update (fun _ p => ⟨p + ⟨-1/10, -1/10, -1/10⟩, p + ⟨1/10, 1/10, 1/10⟩⟩) ⟨1, 1, 0⟩ ⟨0, 0, 0⟩ (12/1000) ⟨⟨⟨0, 0, 0⟩, ⟨0, 0, 0⟩, ⟨0, 0, 0⟩, ⟨⟨0, 0, 0⟩, ⟨0, 0, 0⟩⟩⟩, ⟨⟨0, 0, 1/2⟩, ⟨0, 0, -50⟩, ⟨0, 0, 0⟩, ⟨⟨0, 0, 0⟩, ⟨0, 0, 0⟩⟩⟩⟩).1.obj2.vel.z =
      (if 1/10000 < |(tickSwept (fun _ p => ⟨p + ⟨-1/10, -1/10, -1/10⟩, p + ⟨1/10, 1/10, 1/10⟩⟩) ⟨1, 1, 0⟩ ⟨0, 0, 0⟩ (12/1000) ⟨⟨⟨0, 0, 0⟩, ⟨0, 0, 0⟩, ⟨0, 0, 0⟩, ⟨⟨0, 0, 0⟩, ⟨0, 0, 0⟩⟩⟩, ⟨⟨0, 0, 1/2⟩, ⟨0, 0, -50⟩, ⟨0, 0, 0⟩, ⟨⟨0, 0, 0⟩, ⟨0, 0, 0⟩⟩⟩⟩).normal.z| then
        -1 * ((⟨⟨⟨0, 0, 0⟩, ⟨0, 0, 0⟩, ⟨0, 0, 0⟩, ⟨⟨0, 0, 0⟩, ⟨0, 0, 0⟩⟩⟩, ⟨⟨0, 0, 1/2⟩, ⟨0, 0, -50⟩, ⟨0, 0, 0⟩, ⟨⟨0, 0, 0⟩, ⟨0, 0, 0⟩⟩⟩⟩ : World)).obj2.vel.z else ((⟨⟨⟨0, 0, 0⟩, ⟨0, 0, 0⟩, ⟨0, 0, 0⟩, ⟨⟨0, 0, 0⟩, ⟨0, 0, 0⟩⟩⟩, ⟨⟨0, 0, 1/2⟩, ⟨0, 0, -50⟩, ⟨0, 0, 0⟩, ⟨⟨0, 0, 0⟩, ⟨0, 0, 0⟩⟩⟩⟩ : World)).obj2.vel.z) ∧
    (update (fun _ p => ⟨p + ⟨-1/10, -1/10, -1/10⟩, p + ⟨1/10, 1/10, 1/10⟩⟩) ⟨1, 1, 0⟩ ⟨0, 0, 0⟩ (12/1000) ⟨⟨⟨0, 0, 0⟩, ⟨0, 0, 0⟩, ⟨0, 0, 0⟩, ⟨⟨0, 0, 0⟩, ⟨0, 0, 0⟩⟩⟩, ⟨⟨0, 0, 1/2⟩, ⟨0, 0, -50⟩, ⟨0, 0, 0⟩, ⟨⟨0, 0, 0⟩, ⟨0, 0, 0⟩⟩⟩⟩).1.obj2.vel.x ^ 2 + (update (fun _ p => ⟨p + ⟨-1/10, -1/10, -1/10⟩, p + ⟨1/10, 1/10, 1/10⟩⟩) ⟨1, 1, 0⟩ ⟨0, 0, 0⟩ (12/1000) ⟨⟨⟨0, 0, 0⟩, ⟨0, 0, 0⟩, ⟨0, 0, 0⟩, ⟨⟨0, 0, 0⟩, ⟨0, 0, 0⟩⟩⟩, ⟨⟨0, 0, 1/2⟩, ⟨0, 0, -50⟩, ⟨0, 0, 0⟩, ⟨⟨0, 0, 0⟩, ⟨0, 0, 0⟩⟩⟩⟩).1.obj2.vel.y ^ 2 +
        (update (fun _ p => ⟨p + ⟨-1/10, -1/10, -1/10⟩, p + ⟨1/10, 1/10, 1/10⟩⟩) ⟨1, 1, 0⟩ ⟨0, 0, 0⟩ (12/1000) ⟨⟨⟨0, 0, 0⟩, ⟨0, 0, 0⟩, ⟨0, 0, 0⟩, ⟨⟨0, 0, 0⟩, ⟨0, 0, 0⟩⟩⟩, ⟨⟨0, 0, 1/2⟩, ⟨0, 0, -50⟩, ⟨0, 0, 0⟩, ⟨⟨0, 0, 0⟩, ⟨0, 0, 0⟩⟩⟩⟩).1.obj2.vel.z ^ 2 =
      ((⟨⟨⟨0, 0, 0⟩, ⟨0, 0, 0⟩, ⟨0, 0, 0⟩, ⟨⟨0, 0, 0⟩, ⟨0, 0, 0⟩⟩⟩, ⟨⟨0, 0, 1/2⟩, ⟨0, 0, -50⟩, ⟨0, 0, 0⟩, ⟨⟨0, 0, 0⟩, ⟨0, 0, 0⟩⟩⟩⟩ : World)).obj2.vel.x ^ 2 + ((⟨⟨⟨0, 0, 0⟩, ⟨0, 0, 0⟩, ⟨0, 0, 0⟩, ⟨⟨0, 0, 0⟩, ⟨0, 0, 0⟩⟩⟩, ⟨⟨0, 0, 1/2⟩, ⟨0, 0, -50⟩, ⟨0, 0, 0⟩, ⟨⟨0, 0, 0⟩, ⟨0, 0, 0⟩⟩⟩⟩ : World)).obj2.vel.y ^ 2 +
        ((⟨⟨⟨0, 0, 0⟩, ⟨0, 0, 0⟩, ⟨0, 0, 0⟩, ⟨⟨0, 0, 0⟩, ⟨0, 0, 0⟩⟩⟩, ⟨⟨0, 0, 1/2⟩, ⟨0, 0, -50⟩, ⟨0, 0, 0⟩, ⟨⟨0, 0, 0⟩, ⟨0, 0, 0⟩⟩⟩⟩ : World)).obj2.vel.z ^ 2 := by
  have ht : (tickSwept (fun _ p => ⟨p + ⟨-1/10, -1/10, -1/10⟩, p + ⟨1/10, 1/10, 1/10⟩⟩) ⟨1, 1, 0⟩ ⟨0, 0, 0⟩ (12/1000) ⟨⟨⟨0, 0, 0⟩, ⟨0, 0, 0⟩, ⟨0, 0, 0⟩, ⟨⟨0, 0, 0⟩, ⟨0, 0, 0⟩⟩⟩, ⟨⟨0, 0, 1/2⟩, ⟨0, 0, -50⟩, ⟨0, 0, 0⟩, ⟨⟨0, 0, 0⟩, ⟨0, 0, 0⟩⟩⟩⟩).time = XQ.fin (1/2) := by
    norm_num [tickSwept, prepared, boundaryReflect, Body.rotate, Body.calcAABB, Vec3.scale,
      Vec3.add_def, sweptData_time, noCollTest, xTimes, yTimes, zTimes, xDist, yDist, zDist,
      entryExitDist, entryExitTime, XQ.blt, XQ.bmax, XQ.bmin, abs_of_nonneg, abs_of_nonpos]
  have H := claim7_theorem (fun _ p => ⟨p + ⟨-1/10, -1/10, -1/10⟩, p + ⟨1/10, 1/10, 1/10⟩⟩) ⟨1, 1, 0⟩ ⟨0, 0, 0⟩ (12/1000) ⟨⟨⟨0, 0, 0⟩, ⟨0, 0, 0⟩, ⟨0, 0, 0⟩, ⟨⟨0, 0, 0⟩, ⟨0, 0, 0⟩⟩⟩, ⟨⟨0, 0, 1/2⟩, ⟨0, 0, -50⟩, ⟨0, 0, 0⟩, ⟨⟨0, 0, 0⟩, ⟨0, 0, 0⟩⟩⟩⟩ (1/2)
    (by norm_num [abs_of_nonneg]) (by norm_num [abs_of_nonneg]) (by norm_num [abs_of_nonneg])
    ht (by norm_num) (by norm_num)
  exact ⟨ht, H.1, H.2.1, H.2.2.1, H.2.2.2⟩

end SweptDemo
